import Mathlib

/-!
Shallow embedding of the "ort" three-way tree-merge engine
(merge-ort.c) and of its string-map helper (strmap.c).

Conventions used throughout:
  - C strings become `List Char`; a C `char *` that may point into the
    middle of an interned buffer becomes `CStr` (buffer plus offset), so
    that pointer equality of interned strings is pair equality.
  - The content-addressed object store is modelled by making an object
    id literally be the object (`GitObj`); this keeps `oideq` as
    structural equality and makes blob/tree writes pure.
  - Machine ints: the one place where C integer conversion matters
    (`unsigned clean_merge = handle_content_merge(...)` in
    process_entry) models the int-to-unsigned conversion explicitly
    as reduction mod 2^32.
  - External collaborators (rename pair detection, ll_merge, submodule
    merging) are parameters, mirroring the interfaces merge-ort calls.
  - Aborts (BUG, assert, NULL dereference) become `Except.error` /
    `Option.none` results.
-/

set_option autoImplicit false

/-- Characters of a C string. -/
abbrev CPath := List Char

/-- Convert a Lean string literal to the `List Char` used for paths. -/
def str (s : String) : CPath := s.toList

/-- C strcmp as a three-way comparison on char lists. -/
def strcmpLt : CPath → CPath → Bool
  | [], [] => false
  | [], _ :: _ => true
  | _ :: _, [] => false
  | a :: as, b :: bs => if a = b then strcmpLt as bs else decide (a.toNat < b.toNat)

/-- Less-or-equal in strcmp order. -/
def strcmpLe (a b : CPath) : Bool := strcmpLt a b || a == b

/-- Insertion into a list sorted by `le` (used to model string_list_sort). -/
def insertSorted {α : Type} (le : α → α → Bool) (x : α) : List α → List α
  | [] => [x]
  | y :: ys => if le x y then x :: y :: ys else y :: insertSorted le x ys

/-- Sort; string_list_sort is modelled by an insertion sort since all key
sequences it is applied to here are duplicate-free, so any strcmp sort
gives the same list. -/
def sortedBy {α : Type} (le : α → α → Bool) : List α → List α
  | [] => []
  | x :: xs => insertSorted le x (sortedBy le xs)

/-- A C char pointer into an interned string buffer: the buffer contents
plus the offset of the pointer into it.  The merged_info.directory_name
comment in merge-ort.c guarantees interned buffers are determined by
their contents, so pointer equality is `CStr` equality while the string
value a routine reads through the pointer is `val`. -/
structure CStr where
  buf : CPath
  off : Nat
deriving DecidableEq, Repr, Inhabited

/-- The string value read through the pointer. -/
def CStr.val (s : CStr) : CPath := s.buf.drop s.off

/-- Objects of the content-addressed store.  An object id is modelled as
the object itself; `null` stands for the all-zero null_oid.  A tree
object is, as in the store format, a sequence of (name, mode, oid)
records: `tnil` / `tcons` build that sequence directly so that the type
stays a plain (non-nested) inductive. -/
inductive GitObj where
  | null : GitObj
  | blob : Nat → GitObj
  | tnil : GitObj
  | tcons : CPath → Nat → GitObj → GitObj → GitObj
deriving DecidableEq, Repr, Inhabited

/-- Build a tree object from an entry list. -/
def treeOf : List (CPath × Nat × GitObj) → GitObj
  | [] => GitObj.tnil
  | (n, m, o) :: rest => GitObj.tcons n m o (treeOf rest)

/-- Read a tree object back as an entry list (non-tree spines read as empty). -/
def treeEnts : GitObj → List (CPath × Nat × GitObj)
  | GitObj.tcons n m o rest => (n, m, o) :: treeEnts rest
  | _ => []

/-- mode constants (octal values from the source's S_IF* usage) -/
def modeREG : Nat := 0o100644
def modeEXE : Nat := 0o100755
def modeLNK : Nat := 0o120000
def modeGITLINK : Nat := 0o160000
def modeDIR : Nat := 0o40000
def sIFMT : Nat := 0o170000

def sISREG (m : Nat) : Bool := Nat.land m sIFMT == 0o100000
def sISGITLINK (m : Nat) : Bool := Nat.land m sIFMT == modeGITLINK
def sISLNK (m : Nat) : Bool := Nat.land m sIFMT == modeLNK
def sISDIR (m : Nat) : Bool := Nat.land m sIFMT == modeDIR

/-- version_info from merge-ort.c -/
structure VersionInfo where
  mode : Nat
  oid : GitObj
deriving DecidableEq, Repr, Inhabited

/-- The all-zero version_info produced by xcalloc. -/
def viZero : VersionInfo := { mode := 0, oid := GitObj.null }

/-! ### strmap.c -/

/-- strmap from strmap.c, with the util type a parameter.  Entries keep
insertion order; the hashmap iteration order only feeds loops whose
observable results are order independent or re-sorted downstream. -/
structure Strmap (α : Type) where
  strdup_strings : Bool
  entries : List (CPath × α)
deriving Repr

def strmapEmpty {α : Type} (strdup : Bool) : Strmap α := { strdup_strings := strdup, entries := [] }

/-- find_str_entry -/
def strmapFind {α : Type} (m : Strmap α) (s : CPath) : Option α :=
  (m.entries.find? (fun e => e.1 == s)).map Prod.snd

/-- strmap_contains -/
def strmapContains {α : Type} (m : Strmap α) (s : CPath) : Bool :=
  (m.entries.find? (fun e => e.1 == s)).isSome

/-- strmap_put: overwrite the util of an existing entry, else append. -/
def strmapPutList {α : Type} (l : List (CPath × α)) (s : CPath) (v : α) : List (CPath × α) :=
  match l with
  | [] => [(s, v)]
  | e :: rest => if e.1 == s then (e.1, v) :: rest else e :: strmapPutList rest s v

def strmapPut {α : Type} (m : Strmap α) (s : CPath) (v : α) : Strmap α :=
  { m with entries := strmapPutList m.entries s v }

/-- hashmap_remove_entry: drop the entry, returning it if present. -/
def strmapTake {α : Type} (l : List (CPath × α)) (s : CPath) :
    Option (CPath × α) × List (CPath × α) :=
  match l with
  | [] => (none, [])
  | e :: rest =>
    if e.1 == s then (some e, rest)
    else
      let (r, rest2) := strmapTake rest s
      (r, e :: rest2)

/-- strmap_remove from strmap.c.  The function frees `ret->item.string`
under the `map->strdup_strings` test before checking `ret` for NULL, so
when the key is absent and strdup_strings is set it dereferences a null
pointer; that abnormal termination is modelled as `none`. -/
def strmap_remove {α : Type} (m : Strmap α) (s : CPath) (_free_util : Bool) :
    Option (Strmap α) :=
  let (ret, rest) := strmapTake m.entries s
  if m.strdup_strings then
    match ret with
    | none => none
    | some _ => some { m with entries := rest }
  else
    some { m with entries := rest }

/-! ### Data model of merge-ort.c -/

/-- Three staged versions indexed by mbase = 0, side1 = 1, side2 = 2. -/
structure Stages where
  s0 : VersionInfo
  s1 : VersionInfo
  s2 : VersionInfo
deriving DecidableEq, Repr, Inhabited

def Stages.get (s : Stages) (i : Nat) : VersionInfo :=
  if i = 0 then s.s0 else if i = 1 then s.s1 else s.s2

def Stages.set (s : Stages) (i : Nat) (v : VersionInfo) : Stages :=
  if i = 0 then { s with s0 := v } else if i = 1 then { s with s1 := v } else { s with s2 := v }

def stagesZero : Stages := { s0 := viZero, s1 := viZero, s2 := viZero }

/-- Three per-stage pathnames. -/
structure Pathnames where
  p0 : CPath
  p1 : CPath
  p2 : CPath
deriving DecidableEq, Repr, Inhabited

def Pathnames.get (p : Pathnames) (i : Nat) : CPath :=
  if i = 0 then p.p0 else if i = 1 then p.p1 else p.p2

def Pathnames.set (p : Pathnames) (i : Nat) (v : CPath) : Pathnames :=
  if i = 0 then { p with p0 := v } else if i = 1 then { p with p1 := v } else { p with p2 := v }

/-- merged_info from merge-ort.c -/
structure MergedInfo where
  result : VersionInfo
  directory_name : CStr
  basename_offset : Nat
  is_null : Bool
  clean : Bool
deriving DecidableEq, Repr, Inhabited

/-- conflict_info from merge-ort.c; as in the source the merged_info
fields double as the resolved representation (the source stores a bare
merged_info when an entry is resolved; the extra fields then hold the
xcalloc zero values). -/
structure ConflictInfo where
  merged : MergedInfo
  stages : Stages
  pathnames : Pathnames
  df_conflict : Bool
  path_conflict : Bool
  filemask : Nat
  dirmask : Nat
  match_mask : Nat
  processed : Bool
deriving DecidableEq, Repr, Inhabited

/-- the xcalloc'ed conflict_info before fields are filled in -/
def ciZero : ConflictInfo :=
  { merged := { result := viZero, directory_name := { buf := [], off := 0 },
                basename_offset := 0, is_null := false, clean := false },
    stages := stagesZero,
    pathnames := { p0 := [], p1 := [], p2 := [] },
    df_conflict := false, path_conflict := false,
    filemask := 0, dirmask := 0, match_mask := 0, processed := false }

/-- opt->priv->paths and friends (strmaps whose keys are full paths). -/
abbrev PathsMap := List (CPath × ConflictInfo)

def pmGet (m : PathsMap) (s : CPath) : Option ConflictInfo :=
  (m.find? (fun e => e.1 == s)).map Prod.snd

def pmContains (m : PathsMap) (s : CPath) : Bool :=
  (m.find? (fun e => e.1 == s)).isSome

def pmPut (m : PathsMap) (s : CPath) (v : ConflictInfo) : PathsMap :=
  strmapPutList m s v

def pmRemove (m : PathsMap) (s : CPath) : PathsMap :=
  (strmapTake m s).2

/-- Diagnostic output buffer: output() and err() append tagged messages. -/
abbrev Outputs := List String

/-- diff_filepair as used by the rename code: paths of the two sides,
the diff status letter, and the score field (which collect_renames
overwrites with the side index). -/
structure FilePair where
  one : CPath
  two : CPath
  status : Char
  score : Nat
deriving DecidableEq, Repr, Inhabited

/-- merge_options fields consumed by the embedded code. -/
structure MergeOpts where
  detect_renames : Int
  detect_directory_renames : Nat
  rename_limit : Int
  rename_score : Nat
  recursive_variant : Nat
  renormalize : Bool
  subtree_shift : Option CPath
  ancestor : Option CPath
  branch1 : CPath
  branch2 : CPath
  verbosity : Nat
  buffer_output : Nat
deriving Repr

def MERGE_VARIANT_NORMAL : Nat := 0
def MERGE_VARIANT_OURS : Nat := 1
def MERGE_VARIANT_THEIRS : Nat := 2
def MERGE_DIRECTORY_RENAMES_NONE : Nat := 0
def MERGE_DIRECTORY_RENAMES_CONFLICT : Nat := 1
def MERGE_DIRECTORY_RENAMES_TRUE : Nat := 2
def DIFF_DETECT_RENAME : Int := 1
def DIFF_DETECT_COPY : Int := 2

def defaultOpts : MergeOpts :=
  { detect_renames := -1, detect_directory_renames := MERGE_DIRECTORY_RENAMES_CONFLICT,
    rename_limit := -1, rename_score := 0, recursive_variant := MERGE_VARIANT_NORMAL,
    renormalize := false, subtree_shift := none, ancestor := some (str "base"),
    branch1 := str "branch1", branch2 := str "branch2", verbosity := 0, buffer_output := 1 }

/-- merge_detect_rename from merge-ort.c -/
def mergeDetectRename (opt : MergeOpts) : Bool := opt.detect_renames != 0

/-- External collaborators consumed by the engine (spec section 6):
the pair detector wrapped by get_diffpairs, the textual three-way
merger behind merge_3way, and submodule merging. -/
structure MergeExt where
  diffPairs : GitObj → GitObj → List FilePair
  llMergeStatus : CPath → VersionInfo → VersionInfo → VersionInfo → Nat → Int
  llMergeContent : CPath → VersionInfo → VersionInfo → VersionInfo → Nat → Nat
  llMergeNullBuf : Bool
  writeObjectOk : Bool
  mergeSubmodule : CPath → GitObj → GitObj → GitObj → Int × GitObj
  diffNeededLimit : GitObj → GitObj → Int
  shiftTree : GitObj → GitObj → CPath → GitObj

def trivialExt : MergeExt :=
  { diffPairs := fun _ _ => [],
    llMergeStatus := fun _ _ _ _ _ => 0,
    llMergeContent := fun _ _ _ _ _ => 0,
    llMergeNullBuf := false,
    writeObjectOk := true,
    mergeSubmodule := fun _ o _ _ => (0, o),
    diffNeededLimit := fun _ _ => 0,
    shiftTree := fun _ t _ => t }

/-! ### Content merge adapter (merge_3way, merge_submodule, handle_content_merge) -/

/-- merge_3way from merge-ort.c: sets up ll_opts (variant from
recursive_variant at depth 0, virtual-ancestor mode otherwise), builds
the three labels, reads the three blobs and calls the external ll_merge.
The external call is a parameter; the returned pair is (merge_status,
merged blob contents). -/
def merge3way (opt : MergeOpts) (ext : MergeExt) (callDepth : Nat) (path : CPath)
    (o a b : VersionInfo) (_pathnames : Pathnames) (extraMarkerSize : Nat) :
    Int × Nat :=
  let _variant : Nat :=
    if callDepth > 0 then 0
    else if opt.recursive_variant = MERGE_VARIANT_OURS then 1
    else if opt.recursive_variant = MERGE_VARIANT_THEIRS then 2
    else 0
  (ext.llMergeStatus path o a b extraMarkerSize,
   ext.llMergeContent path o a b extraMarkerSize)

/-- handle_content_merge from merge-ort.c.  Returns the C int result
(1 clean, 0 conflicted, -1 error) together with the version_info it
wrote through `result` and the err()/output() messages; a BUG() abort
becomes Except.error. -/
def handleContentMerge (opt : MergeOpts) (ext : MergeExt) (callDepth : Nat)
    (path : CPath) (o a b : VersionInfo) (pathnames : Pathnames)
    (extraMarkerSize : Nat) : Except String (Int × VersionInfo × Outputs) :=
  let clean : Int := 1
  if Nat.land a.mode sIFMT != Nat.land b.mode sIFMT then
    -- Not both files, not both submodules, not both symlinks
    let clean : Int := 0
    if sISREG a.mode then
      Except.ok (clean, { mode := a.mode, oid := a.oid }, [])
    else
      Except.ok (clean, { mode := b.mode, oid := b.oid }, [])
  else
    -- Merge modes
    let (rmode, clean) :=
      if a.mode == b.mode || a.mode == o.mode then (b.mode, clean)
      else (a.mode, if b.mode == o.mode then (1 : Int) else 0)
    if a.oid == b.oid || a.oid == o.oid then
      Except.ok (clean, { mode := rmode, oid := b.oid }, [])
    else if b.oid == o.oid then
      Except.ok (clean, { mode := rmode, oid := a.oid }, [])
    else if sISREG a.mode then
      let (mergeStatus, content) :=
        merge3way opt ext callDepth path o a b pathnames extraMarkerSize
      let ret : Int := if mergeStatus < 0 || ext.llMergeNullBuf then -1 else 0
      let outs1 : Outputs :=
        if mergeStatus < 0 || ext.llMergeNullBuf
        then ["Failed to execute internal merge"] else []
      let writeFailed := ret == 0 && !ext.writeObjectOk
      let outs2 : Outputs := if writeFailed then ["Unable to add to database"] else []
      let ret : Int := if writeFailed then -1 else ret
      if ret != 0 then
        Except.ok (-1, { mode := rmode, oid := GitObj.null }, outs1 ++ outs2)
      else
        let clean : Int := if mergeStatus == 0 then clean else 0
        Except.ok (clean, { mode := rmode, oid := GitObj.blob content }, [])
    else if sISGITLINK a.mode then
      let (sClean, sOid) := ext.mergeSubmodule pathnames.p0 o.oid a.oid b.oid
      Except.ok (sClean, { mode := rmode, oid := sOid }, [])
    else if sISLNK a.mode then
      if opt.recursive_variant = MERGE_VARIANT_NORMAL then
        Except.ok (if a.oid == b.oid then clean else 0, { mode := rmode, oid := a.oid }, [])
      else if opt.recursive_variant = MERGE_VARIANT_OURS then
        Except.ok (clean, { mode := rmode, oid := a.oid }, [])
      else
        Except.ok (clean, { mode := rmode, oid := b.oid }, [])
    else
      Except.error "BUG: unsupported object type in the tree"

/-! ### unique_path -/

/-- add_flattened_path: append while turning every '/' into '_'. -/
def addFlattenedPath (out : CPath) (s : CPath) : CPath :=
  out ++ s.map (fun c => if c = '/' then '_' else c)

/-- Decimal digits of a number, for the "_%d" suffixes. -/
def natDigits (n : Nat) : CPath := Nat.toDigits 10 n

def uniquePathGo (paths : PathsMap) (base : CPath) : Nat → Nat → CPath → CPath
  | 0, _, cand => cand
  | fuel + 1, suffix, cand =>
    if pmContains paths cand then
      uniquePathGo paths base fuel (suffix + 1) (base ++ '_' :: natDigits suffix)
    else cand

/-- unique_path from merge-ort.c: path ~ flattened-branch, then _0, _1,
... until not in opt->priv->paths.  The C loop runs until a free name is
found; with the candidates pairwise distinct, paths.length + 1 probes
always suffice, which the fuel makes explicit. -/
def uniquePath (paths : PathsMap) (path branch : CPath) : CPath :=
  let base := addFlattenedPath (path ++ ['~']) branch
  uniquePathGo paths base (paths.length + 1) 0 base

/-! ### Tree collection (collect_merge_info_callback / collect_merge_info) -/

/-- One name_entry of the three-way walk: name, mode and oid. -/
abbrev TE := CPath × Nat × GitObj

structure CollectState where
  paths : PathsMap
  possible_dir_rename_bases : List CPath
deriving Repr

/-- test bit i of a small mask -/
def tb (m i : Nat) : Bool := Nat.land m (Nat.shiftLeft 1 i) != 0

def headName : List TE → Option CPath
  | [] => none
  | (n, _, _) :: _ => some n

def minOptName : Option CPath → Option CPath → Option CPath
  | none, b => b
  | a, none => a
  | some a, some b => some (if strcmpLt b a then b else a)

/-- The smallest head name among the three sorted descriptors: the name
the three-way walker will yield next. -/
def minName3 (t0 t1 t2 : List TE) : Option CPath :=
  minOptName (headName t0) (minOptName (headName t1) (headName t2))

/-- Pop the head entry when it carries the given name. -/
def popName (n : CPath) : List TE → Option TE × List TE
  | [] => (none, [])
  | e :: rest => if e.1 == n then (some e, rest) else (none, e :: rest)

/-- setup_path_info from merge-ort.c. -/
def setupPathInfo (currentDir : CStr) (pathlen : Nat) (fullpath : CPath)
    (e0 e1 e2 : Option TE) (mergedVersion : Option (Nat × GitObj))
    (isNull : Bool) (dfConflict : Bool) (filemask dirmask : Nat)
    (resolved : Bool) : ConflictInfo :=
  let base :=
    { ciZero with
      merged := { ciZero.merged with
        directory_name := currentDir, basename_offset := pathlen,
        clean := resolved } }
  if resolved then
    let mv := mergedVersion.getD (0, GitObj.null)
    { base with merged := { base.merged with
        result := { mode := mv.1, oid := mv.2 }, is_null := isNull } }
  else
    let stageOf (i : Nat) (e : Option TE) : VersionInfo :=
      if tb filemask i then
        match e with
        | some (_, m, o) => { mode := m, oid := o }
        | none => viZero
      else viZero
    { base with
      stages := { s0 := stageOf 0 e0, s1 := stageOf 1 e1, s2 := stageOf 2 e2 },
      pathnames := { p0 := fullpath, p1 := fullpath, p2 := fullpath },
      filemask := filemask, dirmask := dirmask, df_conflict := dfConflict }

set_option maxHeartbeats 2000000

/-- collect_merge_info_callback from merge-ort.c.  As in the source,
where traverse_trees receives the callback as a function pointer and
the callback re-enters traverse_trees on subdirectories, the recursive
walk is a function parameter. -/
def collectCB
    (recurse : CollectState → CStr → Nat → Bool →
      List TE → List TE → List TE → Except String CollectState)
    (opt : MergeOpts) (st : CollectState) (curDir : CStr) (pathlen : Nat)
    (iprd : Bool) (n : CPath) (e0 e1 e2 : Option TE) :
    Except String CollectState :=
    let mask := (if e0.isSome then 1 else 0) + (if e1.isSome then 2 else 0)
              + (if e2.isSome then 4 else 0)
    let dirOf (bit : Nat) (e : Option TE) : Nat :=
      match e with
      | some (_, m, _) => if sISDIR m then bit else 0
      | none => 0
    let dirmask := dirOf 1 e0 + dirOf 2 e1 + dirOf 4 e2
    let filemask := Nat.land mask (7 - dirmask)
    let mode0 := (e0.map (fun e => e.2.1)).getD 0
    let mode1 := (e1.map (fun e => e.2.1)).getD 0
    let mode2 := (e2.map (fun e => e.2.1)).getD 0
    let oid0 := (e0.map (fun e => e.2.2)).getD GitObj.null
    let oid1 := (e1.map (fun e => e.2.2)).getD GitObj.null
    let oid2 := (e2.map (fun e => e.2.2)).getD GitObj.null
    let side2Null := e2.isNone
    let side1Null := e1.isNone
    let side1IsTree := tb dirmask 1
    let side2IsTree := tb dirmask 2
    let s1mb := e1.isSome && e0.isSome && mode0 == mode1 && oid0 == oid1
    let s2mb := e2.isSome && e0.isSome && mode0 == mode2 && oid0 == oid2
    let sidesMatch := e1.isSome && e2.isSome && mode1 == mode2 && oid1 == oid2
    let dfConflict := filemask != 0 && dirmask != 0
    let fullpath := if curDir.val.isEmpty then n else curDir.val ++ '/' :: n
    if s1mb && s2mb then
      -- mbase, side1 and side2 all match; use mbase as resolution
      let pi := setupPathInfo curDir pathlen fullpath e0 e1 e2
                  (some (mode0, oid0)) e0.isNone false filemask dirmask true
      Except.ok { st with paths := pmPut st.paths fullpath pi }
    else if filemask == 7 && sidesMatch then
      -- use side1 (== side2) version as resolution
      let pi := setupPathInfo curDir pathlen fullpath e0 e1 e2
                  (some (mode1, oid1)) false false filemask dirmask true
      Except.ok { st with paths := pmPut st.paths fullpath pi }
    else
      -- the two one-side-matches-mbase simplifications; each may clear
      -- masks and fall through to the provisional-conflict case
      if !iprd && s1mb && side2Null then
        Except.ok st
      else if !iprd && s2mb && !s1mb && side1Null then
        Except.ok st
      else
        let fall1 := !iprd && s1mb && !side2Null && (side1IsTree || side2IsTree)
        let use2 := !iprd && s1mb && !side2Null && !(side1IsTree || side2IsTree)
        let fall2 := !iprd && s2mb && !s1mb && !side1Null && (side1IsTree || side2IsTree)
        let use1 := !iprd && s2mb && !s1mb && !side1Null && !(side1IsTree || side2IsTree)
        if use2 then
          let pi := setupPathInfo curDir pathlen fullpath e0 e1 e2
                      (some (mode2, oid2)) side2Null false filemask dirmask true
          Except.ok { st with paths := pmPut st.paths fullpath pi }
        else if use1 then
          let pi := setupPathInfo curDir pathlen fullpath e0 e1 e2
                      (some (mode1, oid1)) side1Null false filemask dirmask true
          Except.ok { st with paths := pmPut st.paths fullpath pi }
        else
          let filemask := if fall1 then Nat.land filemask 4
                          else if fall2 then Nat.land filemask 2 else filemask
          let dirmask := if fall1 then Nat.land dirmask 4
                         else if fall2 then Nat.land dirmask 2 else dirmask
          let s1mb := if fall1 then false else s1mb
          let s2mb := if fall2 then false else s2mb
          let pi0 := setupPathInfo curDir pathlen fullpath e0 e1 e2
                      none false dfConflict filemask dirmask false
          let pi :=
            if filemask != 0 then
              if s1mb then { pi0 with match_mask := 3 }
              else if s2mb then { pi0 with match_mask := 5 }
              else if sidesMatch then { pi0 with match_mask := 6 }
              else pi0
            else pi0
          let st := { st with paths := pmPut st.paths fullpath pi }
          let (st, iprd) :=
            if dirmask == 3 || dirmask == 5 then
              ({ st with possible_dir_rename_bases :=
                   if st.possible_dir_rename_bases.contains fullpath
                   then st.possible_dir_rename_bases
                   else st.possible_dir_rename_bases ++ [fullpath] }, true)
            else (st, iprd)
          if dirmask != 0 then
            let t0 := if tb dirmask 0 then treeEnts oid0 else []
            let t1 := if s1mb then t0
                      else if tb dirmask 1 then treeEnts oid1 else []
            let t2 := if s2mb then t0
                      else if sidesMatch then t1
                      else if tb dirmask 2 then treeEnts oid2 else []
            recurse st { buf := fullpath, off := 0 }
              (fullpath.length + 1) iprd t0 t1 t2
          else
            Except.ok st


/-- The caller-driven three-tree walk (traverse_trees), restricted to
what merge-ort uses: yield every name present in any of the three sorted
descriptors, in order, to the callback; the callback recurses. -/
def traverseGo : Nat → MergeOpts → CollectState → CStr → Nat → Bool →
    List TE → List TE → List TE → Except String CollectState
  | 0, _, _, _, _, _, _, _, _ => Except.error "walk fuel exhausted"
  | fuel + 1, opt, st, curDir, pathlen, iprd, t0, t1, t2 =>
    match minName3 t0 t1 t2 with
    | none => Except.ok st
    | some n =>
      let (e0, r0) := popName n t0
      let (e1, r1) := popName n t1
      let (e2, r2) := popName n t2
      match collectCB
              (fun st c p i a b c2 => traverseGo fuel opt st c p i a b c2)
              opt st curDir pathlen iprd n e0 e1 e2 with
      | Except.error e => Except.error e
      | Except.ok st2 => traverseGo fuel opt st2 curDir pathlen iprd r0 r1 r2

/-- collect_merge_info from merge-ort.c. -/
def collectMergeInfo (fuel : Nat) (opt : MergeOpts)
    (mergeBase side1 side2 : GitObj) : Except String CollectState :=
  traverseGo fuel opt { paths := [], possible_dir_rename_bases := [] }
    { buf := [], off := 0 } 0 false
    (treeEnts mergeBase) (treeEnts side1) (treeEnts side2)

/-! ### Directory rename inference -/

/-- strrchr as an index into the string. -/
def strrchrIdxAux (s : CPath) (c : Char) (i : Nat) (acc : Option Nat) : Option Nat :=
  match s with
  | [] => acc
  | x :: xs => strrchrIdxAux xs c (i + 1) (if x = c then some i else acc)

def strrchrIdx (s : CPath) (c : Char) : Option Nat := strrchrIdxAux s c 0 none

/-- strchr from a starting index. -/
def strchrIdxAux : CPath → Char → Nat → Option Nat
  | [], _, _ => none
  | x :: xs, c, i => if x = c then some i else strchrIdxAux xs c (i + 1)

def strchrFrom (s : CPath) (c : Char) (i : Nat) : Option Nat :=
  strchrIdxAux (s.drop i) c i

/-- The backward walk of get_renamed_dir_portion: with the two cursors
on the final '/' of each path, pre-decrement both and continue while the
characters match and neither cursor reached the start of its string;
the result is the final cursor pair. -/
def backWalk (old new : CPath) : Nat → Nat → Nat × Nat
  | 0, j => (0, j - 1)
  | i + 1, j =>
    let j2 := j - 1
    if old.getD i ' ' == new.getD j2 ' ' && i != 0 && j2 != 0 then
      backWalk old new i j2
    else (i, j2)

/-- get_renamed_dir_portion from merge-ort.c. -/
def getRenamedDirPortion (oldPath newPath : CPath) :
    Option CPath × Option CPath :=
  match strrchrIdx oldPath '/' with
  | none => (none, none)
  | some eo =>
    match strrchrIdx newPath '/' with
    | none => (some (oldPath.take eo), some [])
    | some en =>
      let (i, j) := backWalk oldPath newPath eo en
      if i == 0 && j == 0 && oldPath.getD 0 ' ' == newPath.getD 0 ' ' then
        (none, none)
      else if j == 0 && i != 0 && oldPath.getD (i - 1) ' ' == '/' then
        (some (oldPath.take (i - 1)), some [])
      else
        (some (oldPath.take ((strchrFrom oldPath '/' (i + 1)).getD oldPath.length)),
         some (newPath.take ((strchrFrom newPath '/' (j + 1)).getD newPath.length)))

/-- dir_rename_info from merge-ort.c -/
structure DirRenameInfo where
  non_unique_new_dir : Bool
  new_dir : CPath
  possible_new_dirs : List (CPath × Nat)
deriving DecidableEq, Repr, Inhabited

abbrev DirRenames := List (CPath × DirRenameInfo)

def drGet (m : DirRenames) (s : CPath) : Option DirRenameInfo :=
  (m.find? (fun e => e.1 == s)).map Prod.snd

/-- One iteration of the tally loop of get_directory_renames: count one
rename pair towards its (old dir, candidate new dir) tally. -/
def dirRenTallyStep (dr : DirRenames) (pair : FilePair) : DirRenames :=
  if pair.status != 'R' then dr
  else
    match getRenamedDirPortion pair.one pair.two with
    | (none, _) => dr
    | (some oldDir, newDirOpt) =>
      let newDir := newDirOpt.getD []
      let info := (drGet dr oldDir).getD
        { non_unique_new_dir := false, new_dir := [], possible_new_dirs := [] }
      let count := ((info.possible_new_dirs.find? (fun e => e.1 == newDir)).map Prod.snd).getD 0
      strmapPutList dr oldDir
        { info with possible_new_dirs :=
            strmapPutList info.possible_new_dirs newDir (count + 1) }

/-- The tally loop of get_directory_renames: count how often each
(old dir, candidate new dir) pair occurs among the rename pairs. -/
def dirRenTally (pairs : List FilePair) : DirRenames :=
  pairs.foldl dirRenTallyStep []

/-- One iteration of the winner loop of get_directory_renames: running
maximum with a tied-maximum detector. -/
def winnerStep (acc : Nat × Nat × Option CPath) (pc : CPath × Nat) :
    Nat × Nat × Option CPath :=
  let (mx, bad, best) := acc
  if pc.2 == mx then (mx, mx, best)
  else if pc.2 > mx then (pc.2, bad, some pc.1)
  else acc

/-- The winner loop of get_directory_renames. -/
def winnerScan (l : List (CPath × Nat)) : Nat × Nat × Option CPath :=
  l.foldl winnerStep (0, 0, none)

def pickWinner (info : DirRenameInfo) : DirRenameInfo :=
  let (mx, bad, best) := winnerScan info.possible_new_dirs
  if bad == mx then
    { info with non_unique_new_dir := true, possible_new_dirs := [] }
  else
    { info with new_dir := info.new_dir ++ best.getD [], possible_new_dirs := [] }

/-- get_directory_renames from merge-ort.c: tally then pick winners. -/
def getDirectoryRenames (pairs : List FilePair) : DirRenames :=
  (dirRenTally pairs).map (fun e => (e.1, pickWinner e.2))

/-- apply_dir_rename from merge-ort.c. -/
def applyDirRename (renameInfo : CPath × DirRenameInfo) (oldPath : CPath) :
    Option CPath :=
  let info := renameInfo.2
  if info.non_unique_new_dir then none
  else
    let oldlen := renameInfo.1.length
    let oldlen := if info.new_dir.length == 0 then oldlen + 1 else oldlen
    some (info.new_dir ++ oldPath.drop oldlen)

/-- check_dir_renamed from merge-ort.c: truncate at the last '/' until a
prefix directory found in dir_renames (or no '/' remains). -/
def checkDirRenamedGo (dirRenames : DirRenames) : Nat → CPath →
    Option (CPath × DirRenameInfo)
  | 0, _ => none
  | fuel + 1, temp =>
    match strrchrIdx temp '/' with
    | none => none
    | some e =>
      let temp2 := temp.take e
      match drGet dirRenames temp2 with
      | some info => some (temp2, info)
      | none => checkDirRenamedGo dirRenames fuel temp2

def checkDirRenamed (path : CPath) (dirRenames : DirRenames) :
    Option (CPath × DirRenameInfo) :=
  checkDirRenamedGo dirRenames (path.length + 1) path

/-- collision_info from merge-ort.c -/
structure CollisionInfo where
  source_files : List CPath
  reported_already : Bool
deriving DecidableEq, Repr, Inhabited

abbrev Collisions := List (CPath × CollisionInfo)

def colGet (m : Collisions) (s : CPath) : Option CollisionInfo :=
  (m.find? (fun e => e.1 == s)).map Prod.snd

/-- string_list_insert: insert in sorted position, no duplicates. -/
def slInsert (x : CPath) (l : List CPath) : List CPath :=
  if l.contains x then l else insertSorted strcmpLe x l

/-- compute_collisions from merge-ort.c. -/
def computeCollisions (dirRenames : DirRenames) (pairs : List FilePair) :
    Collisions :=
  if dirRenames.isEmpty then []
  else
    pairs.foldl
      (fun cols p =>
        if p.status != 'A' && p.status != 'R' then cols
        else
          match checkDirRenamed p.two dirRenames with
          | none => cols
          | some rinfo =>
            match applyDirRename rinfo p.two with
            | none => cols
            | some newPath =>
              let ci := (colGet cols newPath).getD
                { source_files := [], reported_already := false }
              strmapPutList cols newPath
                { ci with source_files := slInsert p.two ci.source_files })
      []

/-- path_in_way from merge-ort.c. -/
def pathInWay (paths : PathsMap) (path : CPath) (sideMask : Nat) : Bool :=
  match pmGet paths path with
  | none => false
  | some ci =>
    ci.merged.clean || Nat.land sideMask (Nat.lor ci.filemask ci.dirmask) != 0

/-- handle_path_level_conflicts from merge-ort.c.  Returns the new path
when the rename applies cleanly (NULL return otherwise), the updated
collision map and the conflict messages. -/
def handlePathLevelConflicts (paths : PathsMap) (path : CPath)
    (sideIndex : Nat) (renameInfo : CPath × DirRenameInfo)
    (collisions : Collisions) :
    Except String (Option CPath × Collisions × Outputs) :=
  match applyDirRename renameInfo path with
  | none =>
    if !renameInfo.2.non_unique_new_dir then
      Except.error "BUG: dr_info->non_unqiue_dir not set and !new_path"
    else
      Except.ok (none, collisions, ["CONFLICT (directory rename split)"])
  | some newPath =>
    match colGet collisions newPath with
    | none => Except.error "BUG: c_info is NULL"
    | some cinfo =>
      if cinfo.reported_already then
        Except.ok (none, collisions, [])
      else if pathInWay paths newPath (Nat.shiftLeft 1 sideIndex) then
        Except.ok (none,
          strmapPutList collisions newPath { cinfo with reported_already := true },
          ["CONFLICT (implicit dir rename): existing path in the way"])
      else if cinfo.source_files.length > 1 then
        Except.ok (none,
          strmapPutList collisions newPath { cinfo with reported_already := true },
          ["CONFLICT (implicit dir rename): cannot map more than one path"])
      else
        Except.ok (some newPath, collisions, [])

/-- check_for_directory_rename from merge-ort.c.  Also returns the
clean_merge flag it updates through its out-parameter. -/
def checkForDirectoryRename (paths : PathsMap) (path : CPath)
    (sideIndex : Nat) (dirRenames : DirRenames)
    (dirRenameExclusions : DirRenames) (collisions : Collisions)
    (cleanMerge : Int) :
    Except String (Option CPath × Collisions × Int × Outputs) :=
  if dirRenames.isEmpty then Except.ok (none, collisions, cleanMerge, [])
  else
    match checkDirRenamed path dirRenames with
    | none => Except.ok (none, collisions, cleanMerge, [])
    | some rinfo =>
      match drGet dirRenameExclusions rinfo.1 with
      | some _ =>
        Except.ok (none, collisions, cleanMerge,
          ["WARNING: avoiding applying rename because target itself was renamed"])
      | none =>
        match handlePathLevelConflicts paths path sideIndex rinfo collisions with
        | Except.error e => Except.error e
        | Except.ok (newPathOpt, cols, outs) =>
          Except.ok (newPathOpt, cols,
            if newPathOpt.isSome then cleanMerge else 0, outs)

/-- The parent-directory search loop at the top of
apply_directory_rename_modifications: walk up from new_path, collecting
the parent directories missing from opt->priv->paths, until one is
found (NULL parents of the root make the C loop spin, hence the fuel;
real path maps contain an ancestor of every rename target). -/
def adrmFindParents (paths : PathsMap) : Nat → CPath → List CPath →
    Option (CPath × List CPath)
  | 0, _, _ => none
  | fuel + 1, curPath, acc =>
    let parentName :=
      match strrchrIdx curPath '/' with
      | some i => curPath.take i
      | none => []
    if pmContains paths parentName then some (parentName, acc)
    else adrmFindParents paths fuel parentName (acc ++ [parentName])

/-- apply_directory_rename_modifications from merge-ort.c. -/
def applyDirectoryRenameModifications (paths : PathsMap)
    (pathsToFree : List CPath) (pair : FilePair) (newPath : CPath) :
    Except String (PathsMap × List CPath × FilePair) :=
  let oldPath := pair.two
  match pmGet paths oldPath with
  | none => Except.error "nullderef: old_path not in opt->priv->paths"
  | some ci =>
    match adrmFindParents paths (newPath.length + 2) newPath [] with
    | none => Except.error "parent search did not terminate"
    | some (parentName0, dirsToInsert) =>
      let (paths, parentName) :=
        dirsToInsert.reverse.foldl
          (fun (acc : PathsMap × CPath) curDir =>
            let (paths, parentName) := acc
            let len := parentName.length
            let dirCi :=
              { ciZero with
                merged := { ciZero.merged with
                  directory_name := { buf := parentName, off := 0 },
                  basename_offset := if len > 0 then len + 1 else len },
                dirmask := ci.filemask }
            (pmPut paths curDir dirCi, curDir))
          (paths, parentName0)
      let pathsToFree := pathsToFree ++ [oldPath]
      let paths := pmRemove paths oldPath
      let len := parentName.length
      let ci :=
        { ci with merged := { ci.merged with
            directory_name := { buf := parentName, off := 0 },
            basename_offset := if len > 0 then len + 1 else len } }
      match pmGet paths newPath with
      | none =>
        Except.ok (pmPut paths newPath ci, pathsToFree, { pair with two := newPath })
      | some newCi =>
        if !(ci.filemask == 2 || ci.filemask == 4) then
          Except.error "assert: ci->filemask is 2 or 4"
        else if Nat.land newCi.filemask ci.filemask != 0 then
          Except.error "assert: masks overlap"
        else if newCi.merged.clean then
          Except.error "assert: new_ci clean"
        else
          let index := ci.filemask / 2
          let newCi :=
            { newCi with
              filemask := Nat.lor newCi.filemask ci.filemask,
              pathnames := newCi.pathnames.set index (ci.pathnames.get index),
              stages := newCi.stages.set index (ci.stages.get index) }
          Except.ok (pmPut paths newPath newCi, pathsToFree, { pair with two := newPath })

/-! ### Rename detection plumbing -/

/-- The diff options computed by get_diffpairs together with the
needed_rename_limit bookkeeping: returns the detect_rename value after
the DIFF_DETECT_RENAME cap, the rename_limit handed to the external
diff, and the updated opt->priv->needed_rename_limit. -/
def getDiffpairsSetup (opt : MergeOpts) (neededRenameLimit : Int)
    (diffNeededRenameLimit : Int) : Int × Int × Int :=
  let dr : Int := if mergeDetectRename opt then 1 else 0
  let dr := if dr > DIFF_DETECT_RENAME then DIFF_DETECT_RENAME else dr
  let rl : Int := if opt.rename_limit >= 0 then opt.rename_limit else 1000
  let needed :=
    if diffNeededRenameLimit > neededRenameLimit then diffNeededRenameLimit
    else neededRenameLimit
  (dr, rl, needed)

/-- get_diffpairs from merge-ort.c: the detected pairs come from the
external diff engine; merge-ort just sets options and records the limit
the detector reported needing. -/
def getDiffpairs (opt : MergeOpts) (ext : MergeExt) (neededRenameLimit : Int)
    (mergeBase side : GitObj) : List FilePair × Int :=
  let setup := getDiffpairsSetup opt neededRenameLimit (ext.diffNeededLimit mergeBase side)
  (ext.diffPairs mergeBase side, setup.2.2)

/-- compare_pairs from merge-ort.c as a sort predicate. -/
def pairLe (a b : FilePair) : Bool :=
  if a.one == b.one then a.score <= b.score else strcmpLt a.one b.one

/-- The loop body of collect_renames: the fold state is (clean, queue,
paths, paths_to_free, collisions, output). -/
def collectRenamesStep (opt : MergeOpts) (sideIndex : Nat)
    (dirRenamesForSide renameExclusions : DirRenames)
    (acc : Except String (Int × List FilePair × PathsMap × List CPath × Collisions × Outputs))
    (p : FilePair) :
    Except String (Int × List FilePair × PathsMap × List CPath × Collisions × Outputs) :=
  match acc with
  | Except.error e => Except.error e
  | Except.ok (clean, queue, paths, ptf, cols, outs) =>
    if p.status != 'A' && p.status != 'R' then
      Except.ok (clean, queue, paths, ptf, cols, outs)
    else
      match checkForDirectoryRename paths p.two sideIndex dirRenamesForSide
              renameExclusions cols clean with
      | Except.error e => Except.error e
      | Except.ok (newPathOpt, cols, clean, outs1) =>
        if p.status != 'R' && newPathOpt.isNone then
          Except.ok (clean, queue, paths, ptf, cols, outs ++ outs1)
        else
          match newPathOpt with
          | some np =>
            match applyDirectoryRenameModifications paths ptf p np with
            | Except.error e => Except.error e
            | Except.ok (paths, ptf, p) =>
              Except.ok (clean, queue ++ [{ p with score := sideIndex }],
                paths, ptf, cols, outs ++ outs1)
          | none =>
            Except.ok (clean, queue ++ [{ p with score := sideIndex }],
              paths, ptf, cols, outs ++ outs1)

/-- collect_renames from merge-ort.c. -/
def collectRenames (opt : MergeOpts) (queue : List FilePair) (sideIndex : Nat)
    (sidePairs : List FilePair) (dirRenamesForSide : DirRenames)
    (renameExclusions : DirRenames) (paths : PathsMap)
    (pathsToFree : List CPath) :
    Except String (Int × List FilePair × PathsMap × List CPath × Outputs) :=
  let collisions := computeCollisions dirRenamesForSide sidePairs
  match sidePairs.foldl (collectRenamesStep opt sideIndex dirRenamesForSide renameExclusions)
      (Except.ok (1, queue, paths, pathsToFree, collisions, [])) with
  | Except.error e => Except.error e
  | Except.ok (clean, queue, paths, ptf, _, outs) =>
    Except.ok (clean, queue, paths, ptf, outs)

/-- Logical-and of the C 0/1 clean flags. -/
def iand (a b : Int) : Int := if a == 0 || b == 0 then 0 else 1

/-- The tail of the process_renames loop body handling a single rename
pair (collision / rename-delete / ordinary rename analysis); returns
the updated path map and messages. -/
def processRenamesOne (opt : MergeOpts) (ext : MergeExt) (callDepth : Nat)
    (pair : FilePair) (paths : PathsMap) :
    Except String (PathsMap × Outputs) :=
  let oldpath := pair.one
  let newpath := pair.two
  match pmGet paths oldpath, pmGet paths newpath with
  | some oldinfo, some newinfo =>
    if newinfo.merged.clean then Except.error "assert: !newinfo->merged.clean"
    else
      let targetIndex := pair.score
      if !(targetIndex == 1 || targetIndex == 2) then
        Except.error "assert: target_index is 1 or 2"
      else
        let otherSourceIndex := 3 - targetIndex
        let oldSidemask := Nat.shiftLeft otherSourceIndex 1
        let sourceDeleted := oldinfo.filemask == 1
        let collision := Nat.land newinfo.filemask oldSidemask != 0
        if !(sourceDeleted || Nat.land oldinfo.filemask oldSidemask != 0) then
          Except.error "assert: source_deleted or old sidemask"
        else
          -- in all cases, mark the original as resolved by removal
          let oldinfo :=
            { oldinfo with merged := { oldinfo.merged with is_null := true, clean := true } }
          let paths := pmPut paths oldpath oldinfo
          if collision && !sourceDeleted then
            let pn := (Pathnames.set (Pathnames.set
              { p0 := oldpath, p1 := oldpath, p2 := oldpath }
              otherSourceIndex oldpath) targetIndex newpath)
            match pmGet paths pn.p0, pmGet paths pn.p1, pmGet paths pn.p2 with
            | some base, some side1, some side2 =>
              match handleContentMerge opt ext callDepth pair.one base.stages.s0
                      side1.stages.s1 side2.stages.s2 pn (1 + 2 * callDepth) with
              | Except.error e => Except.error e
              | Except.ok (_, merged, outs1) =>
                let newinfo := (pmGet paths newpath).getD newinfo
                let newinfo := { newinfo with stages := newinfo.stages.set targetIndex merged }
                Except.ok (pmPut paths newpath newinfo, outs1)
            | _, _, _ => Except.error "nullderef: rename/add stages missing"
          else if collision && sourceDeleted then
            -- rename/add/delete: leave things looking like add/add
            Except.ok (paths, [])
          else
            let newinfo := (pmGet paths newpath).getD newinfo
            let newinfo :=
              { newinfo with
                stages := { newinfo.stages with s0 := oldinfo.stages.s0 },
                filemask := Nat.lor newinfo.filemask 1,
                pathnames := { newinfo.pathnames with p0 := oldpath } }
            let newinfo :=
              if !sourceDeleted then
                { newinfo with
                  stages := newinfo.stages.set otherSourceIndex
                    (oldinfo.stages.get otherSourceIndex),
                  filemask := Nat.lor newinfo.filemask oldSidemask,
                  pathnames := newinfo.pathnames.set otherSourceIndex oldpath }
              else newinfo
            Except.ok (pmPut paths newpath newinfo, [])
  | _, _ => Except.error "assert: oldinfo and newinfo"

/-- process_renames from merge-ort.c.  The queue is sorted by
(source path, score), so both renames of a rename/rename share the
source path with their neighbour. -/
def processRenamesGo (opt : MergeOpts) (ext : MergeExt) (callDepth : Nat) :
    List FilePair → PathsMap → Outputs →
    Except String (Int × PathsMap × Outputs)
  | [], paths, outs => Except.ok (1, paths, outs)
  | pair :: rest, paths, outs =>
    let oldpath := pair.one
    let newpath := pair.two
    match pmGet paths oldpath with
    | none => processRenamesGo opt ext callDepth rest paths outs
    | some oldinfo =>
      if oldinfo.merged.clean then
        processRenamesGo opt ext callDepth rest paths outs
      else
        let lookahead := match rest with
          | next :: _ => next.one == oldpath
          | [] => false
        if lookahead then
          match rest with
          | [] => Except.error "unreachable"
          | next :: rest2 =>
            -- rename/rename(1to2) or rename/rename(1to1)
            let pn : Pathnames := { p0 := oldpath, p1 := newpath, p2 := next.two }
            match pmGet paths pn.p0, pmGet paths pn.p1, pmGet paths pn.p2 with
            | some base, some side1, some side2 =>
              if pn.p1 == pn.p2 then
                -- rename/rename(1to1)
                let side1 :=
                  { side1 with
                    stages := { side1.stages with s0 := base.stages.s0 },
                    filemask := Nat.lor side1.filemask 1 }
                let paths := pmPut paths pn.p1 side1
                let base := (pmGet paths pn.p0).getD base
                let base :=
                  { base with merged := { base.merged with is_null := true, clean := true } }
                let paths := pmPut paths pn.p0 base
                processRenamesGo opt ext callDepth rest2 paths outs
              else
                -- rename/rename(1to2); handle_content_merge return ignored (FIXME in source)
                match handleContentMerge opt ext callDepth pair.one base.stages.s0
                        side1.stages.s1 side2.stages.s2 pn (1 + 2 * callDepth) with
                | Except.error e => Except.error e
                | Except.ok (_, merged, outs1) =>
                  let side1 :=
                    { side1 with
                      stages := { side1.stages with s1 := merged },
                      path_conflict := true }
                  let paths := pmPut paths pn.p1 side1
                  let side2 := (pmGet paths pn.p2).getD side2
                  let side2 :=
                    { side2 with
                      stages := { side2.stages with s2 := merged },
                      path_conflict := true }
                  let paths := pmPut paths pn.p2 side2
                  let base := (pmGet paths pn.p0).getD base
                  let base := { base with path_conflict := true }
                  let paths := pmPut paths pn.p0 base
                  processRenamesGo opt ext callDepth rest2 paths (outs ++ outs1)
            | _, _, _ => Except.error "nullderef: rename/rename stages missing"
        else
          match processRenamesOne opt ext callDepth pair paths with
          | Except.error e => Except.error e
          | Except.ok (paths, outs1) =>
            processRenamesGo opt ext callDepth rest paths (outs ++ outs1)

/-- process_renames entry: clean_merge is never cleared by the body in
this version of the source, so a normal return is always 1. -/
def processRenames (opt : MergeOpts) (ext : MergeExt) (callDepth : Nat)
    (paths : PathsMap) (renames : List FilePair) :
    Except String (Int × PathsMap × Outputs) :=
  processRenamesGo opt ext callDepth renames paths []

/-- detect_and_process_renames from merge-ort.c.  Returns clean flag,
updated path map and paths_to_free, the combined rename queue (the
caller-owned out-parameter), diagnostic output, and the updated
needed_rename_limit. -/
def detectAndProcessRenames (opt : MergeOpts) (ext : MergeExt)
    (callDepth : Nat) (paths : PathsMap)
    (possibleDirRenameBases : List CPath) (pathsToFree : List CPath)
    (mergeBase side1 side2 : GitObj) (neededRenameLimit : Int) :
    Except String (Int × PathsMap × List CPath × List FilePair × Outputs × Int) :=
  if !mergeDetectRename opt then
    Except.ok (1, paths, pathsToFree, [], [], neededRenameLimit)
  else
    let (side1Pairs, nrl) := getDiffpairs opt ext neededRenameLimit mergeBase side1
    let (side2Pairs, nrl) := getDiffpairs opt ext nrl mergeBase side2
    let needDirRenames :=
      callDepth == 0 && !possibleDirRenameBases.isEmpty &&
      (opt.detect_directory_renames == MERGE_DIRECTORY_RENAMES_TRUE ||
       opt.detect_directory_renames == MERGE_DIRECTORY_RENAMES_CONFLICT)
    let side1DirRenames := if needDirRenames then getDirectoryRenames side1Pairs else []
    let side2DirRenames := if needDirRenames then getDirectoryRenames side2Pairs else []
    match collectRenames opt [] 1 side1Pairs side2DirRenames side1DirRenames
            paths pathsToFree with
    | Except.error e => Except.error e
    | Except.ok (clean1, queue, paths, ptf, outs1) =>
      match collectRenames opt queue 2 side2Pairs side1DirRenames side2DirRenames
              paths ptf with
      | Except.error e => Except.error e
      | Except.ok (clean2, queue, paths, ptf, outs2) =>
        let combined := sortedBy pairLe queue
        match processRenames opt ext callDepth paths combined with
        | Except.error e => Except.error e
        | Except.ok (clean3, paths, outs3) =>
          Except.ok (iand (iand clean1 clean2) clean3, paths, ptf, combined,
            outs1 ++ outs2 ++ outs3, nrl)

/-! ### Tree writing (write_tree, record_entry_for_tree,
write_completed_directories, process_entry, process_entries) -/

/-- directory_versions from merge-ort.c.  The util pointers stored in
versions read back as version_infos (record_entry_for_tree stores
&ci->merged.result and write_completed_directories stores the dir
merged_info, whose first member is its result), so the entries carry
the snapshot of that version_info. -/
structure DirVersions where
  versions : List (CStr × VersionInfo)
  offsets : List (CStr × Nat)
  last_directory : Option CStr
  last_directory_len : Nat
deriving Repr

/-- write_tree from merge-ort.c: sort the last (nr - offset) entries by
basename and emit the tree object; the object id of the written tree is
the tree itself in the content-addressed model. -/
def writeTree (versions : List (CStr × VersionInfo)) (offset : Nat) : GitObj :=
  let rel := versions.drop offset
  let sorted := sortedBy (fun (a b : CStr × VersionInfo) => strcmpLe a.1.val b.1.val) rel
  treeOf (sorted.map (fun e => (e.1.val, e.2.mode, e.2.oid)))

/-- record_entry_for_tree from merge-ort.c. -/
def recordEntryForTree (dirMetadata : DirVersions) (path : CPath)
    (ci : ConflictInfo) : DirVersions :=
  if ci.merged.is_null then dirMetadata
  else if !ci.merged.clean && ci.filemask == 0 then dirMetadata
  else
    { dirMetadata with
      versions := dirMetadata.versions ++
        [({ buf := path, off := ci.merged.basename_offset }, ci.merged.result)] }

/-- strncmp(a, b, n) == 0, reading the two pointer values. -/
def strncmpEq (a b : CPath) (n : Nat) : Bool := a.take n == b.take n

/-- write_completed_directories from merge-ort.c.  Updates the path map
(the result/is_null of the directory just closed is written through the
dir_info pointer) and the directory_versions state. -/
def writeCompletedDirectories (paths : PathsMap) (newDirectoryName : CStr)
    (info : DirVersions) : Except String (PathsMap × DirVersions) :=
  if some newDirectoryName == info.last_directory then
    Except.ok (paths, info)
  else if info.last_directory == none ||
      strncmpEq newDirectoryName.val ((info.last_directory.getD newDirectoryName).val)
        info.last_directory_len then
    let offset := info.versions.length
    Except.ok (paths,
      { info with
        last_directory := some newDirectoryName,
        last_directory_len := newDirectoryName.val.length,
        offsets := info.offsets ++ [(newDirectoryName, offset)] })
  else
    match info.last_directory with
    | none => Except.error "unreachable"
    | some lastDir =>
      match pmGet paths lastDir.val with
      | none => Except.error "nullderef: last_directory not in paths"
      | some dirEntry =>
        match info.offsets.getLast? with
        | none => Except.error "offsets stack underflow"
        | some topFrame =>
          let offset := topFrame.2
          let (dirEntry, wroteANewTree, newTree) :=
            if offset == info.versions.length then
              ({ dirEntry with merged := { dirEntry.merged with is_null := true } },
               false, GitObj.null)
            else
              let t := writeTree info.versions offset
              ({ dirEntry with merged := { dirEntry.merged with
                   result := { mode := modeDIR, oid := t } } },
               true, t)
          let paths := pmPut paths lastDir.val dirEntry
          let offsets := info.offsets.dropLast
          let versions := info.versions.take offset
          let prevDir : Option CStr := offsets.getLast?.map Prod.fst
          let offsets :=
            if some newDirectoryName != prevDir then
              let dirName :=
                match strrchrIdx newDirectoryName.val '/' with
                | some i => { buf := newDirectoryName.buf,
                              off := newDirectoryName.off + i + 1 : CStr }
                | none => newDirectoryName
              offsets ++ [(dirName, versions.length)]
            else offsets
          let versions :=
            if wroteANewTree then
              let dirName :=
                match strrchrIdx lastDir.val '/' with
                | some i => { buf := lastDir.buf, off := lastDir.off + i + 1 : CStr }
                | none => lastDir
              versions ++ [(dirName, { mode := modeDIR, oid := newTree : VersionInfo })]
            else versions
          Except.ok (paths,
            { versions := versions, offsets := offsets,
              last_directory := some newDirectoryName,
              last_directory_len := newDirectoryName.val.length })

/-- Convert the C int returned by handle_content_merge to the unsigned
local clean_merge of process_entry (int-to-unsigned conversion mod 2^32). -/
def toUnsigned32 (i : Int) : Nat := (i.emod 4294967296).toNat

/-- The outcome of process_entry: the updated path map (the entry is
stored back through its util pointer, possibly under a new unique path
for a D/F conflict), the entry the caller's list item now designates,
the tree-writer state, the unmerged map and messages. -/
structure ProcessEntryResult where
  paths : PathsMap
  path : CPath
  ci : ConflictInfo
  dirMetadata : DirVersions
  unmerged : PathsMap
  outs : Outputs
deriving Repr

/-- process_entry from merge-ort.c. -/
def processEntry (opt : MergeOpts) (ext : MergeExt) (callDepth : Nat)
    (paths : PathsMap) (pathIn : CPath) (ciIn : ConflictInfo)
    (dirMetadata : DirVersions) (unmerged : PathsMap) :
    Except String ProcessEntryResult :=
  if ciIn.merged.clean || ciIn.processed then
    Except.error "assert: !ci->merged.clean && !ci->processed"
  else if ciIn.filemask >= 8 then
    Except.error "assert: ci->filemask < 8"
  else
    let ci := { ciIn with processed := true }
    if ci.filemask == 0 then
      -- placeholder for directories that were recursed into
      Except.ok { paths := pmPut paths pathIn ci, path := pathIn, ci := ci,
                  dirMetadata := dirMetadata, unmerged := unmerged, outs := [] }
    else
      let step2 : Except String (PathsMap × CPath × ConflictInfo × Nat × Bool) :=
        if ci.df_conflict && ci.merged.result.mode == 0 then
          -- directory no longer in the way
          let ci2 := { ci with
            df_conflict := false,
            merged := { ci.merged with clean := false, is_null := false } }
          Except.ok (pmPut paths pathIn ci2, pathIn, ci2, 0, false)
        else if ci.df_conflict && ci.merged.result.mode != 0 then
          if ci.merged.result.mode != modeDIR then
            Except.error "assert: ci->merged.result.mode == S_IFDIR"
          else if ci.filemask == 1 then
            -- file deleted on both sides; keep the directory result
            let ci := { ci with filemask := 0 }
            Except.ok (pmPut paths pathIn ci, pathIn, ci, 0, true)
          else
            let newCi := ci
            let dfFileIndex := if tb ci.dirmask 1 then 2 else 1
            let branch := if dfFileIndex == 1 then opt.branch1 else opt.branch2
            let path := uniquePath paths pathIn branch
            let paths := pmPut paths path newCi
            let paths := pmPut paths pathIn { ci with filemask := 0 }
            Except.ok (paths, path, newCi, dfFileIndex, false)
        else
          Except.ok (paths, pathIn, ci, 0, false)
      match step2 with
      | Except.error e => Except.error e
      | Except.ok (paths, path, ci, dfFileIndex, earlyReturn) =>
        if earlyReturn then
          Except.ok { paths := paths, path := path, ci := ci,
                      dirMetadata := dirMetadata, unmerged := unmerged, outs := [] }
        else
          let resolve : Except String (ConflictInfo × Outputs) :=
            if ci.match_mask != 0 then
              if ci.match_mask == 6 then
                Except.ok ({ ci with merged := { ci.merged with
                  clean := true, result := ci.stages.s1 } }, [])
              else
                let othermask := Nat.land 7 (7 - ci.match_mask)
                let side := if othermask == 4 then 2 else 1
                let isNull := ci.filemask == ci.match_mask
                let res := ci.stages.get side
                if !(othermask == 2 || othermask == 4) then
                  Except.error "assert: othermask is 2 or 4"
                else if isNull != (res.mode == 0) then
                  Except.error "assert: is_null iff result mode zero"
                else
                  Except.ok ({ ci with merged := { ci.merged with
                    clean := true, is_null := isNull, result := res } }, [])
            else if ci.filemask >= 6 then
              match handleContentMerge opt ext callDepth path ci.stages.s0
                      ci.stages.s1 ci.stages.s2 ci.pathnames (callDepth * 2) with
              | Except.error e => Except.error e
              | Except.ok (cleanRet, mergedFile, outs1) =>
                let cleanMerge := toUnsigned32 cleanRet
                let ci :=
                  { ci with merged := { ci.merged with
                      clean := cleanMerge != 0 && !ci.df_conflict,
                      result := mergedFile } }
                if cleanMerge != 0 && ci.df_conflict then
                  if !(dfFileIndex == 1 || dfFileIndex == 2) then
                    Except.error "assert: df_file_index is 1 or 2"
                  else
                    Except.ok ({ ci with
                      filemask := Nat.shiftLeft 1 dfFileIndex,
                      stages := ci.stages.set dfFileIndex mergedFile }, outs1)
                else
                  Except.ok (ci, outs1)
            else if ci.filemask == 3 || ci.filemask == 5 then
              -- modify/delete
              let side := if ci.filemask == 5 then 2 else 1
              let index := if callDepth != 0 then 0 else side
              Except.ok ({ ci with merged := { ci.merged with
                result := ci.stages.get index, clean := false } }, [])
            else if ci.filemask == 2 || ci.filemask == 4 then
              -- added on one side
              let side := if ci.filemask == 4 then 2 else 1
              Except.ok ({ ci with merged := { ci.merged with
                result := ci.stages.get side,
                clean := !ci.df_conflict && !ci.path_conflict } }, [])
            else if ci.filemask == 1 then
              -- deleted on both sides
              Except.ok ({ ci with merged := { ci.merged with
                is_null := true, result := viZero,
                clean := !ci.path_conflict } }, [])
            else
              Except.ok (ci, [])
          match resolve with
          | Except.error e => Except.error e
          | Except.ok (ci, outs) =>
            let unmerged := if !ci.merged.clean then pmPut unmerged path ci else unmerged
            let dirMetadata := recordEntryForTree dirMetadata path ci
            Except.ok { paths := pmPut paths path ci, path := path, ci := ci,
                        dirMetadata := dirMetadata, unmerged := unmerged, outs := outs }

/-- process_entries from merge-ort.c: sort all paths, iterate in
reverse so contained directories precede containers, close directories
through write_completed_directories, resolve entries, and write the
root tree.  The final accounting check is the BUG() call of the
source. -/
def processEntries (opt : MergeOpts) (ext : MergeExt) (callDepth : Nat)
    (paths : PathsMap) :
    Except String (GitObj × PathsMap × PathsMap × Outputs) :=
  if paths.isEmpty then
    Except.ok (GitObj.tnil, paths, [], [])
  else
    let plist := sortedBy (fun (a b : CPath × ConflictInfo) => strcmpLe a.1 b.1) paths
    let dirMetadata : DirVersions :=
      { versions := [], offsets := [], last_directory := none, last_directory_len := 0 }
    let step := fun (acc : Except String (PathsMap × DirVersions × PathsMap × Outputs))
                    (entry : CPath × ConflictInfo) =>
      match acc with
      | Except.error e => Except.error e
      | Except.ok (paths, dirMetadata, unmerged, outs) =>
        match pmGet paths entry.1 with
        | none => Except.error "entry vanished from paths"
        | some ci0 =>
          match writeCompletedDirectories paths ci0.merged.directory_name dirMetadata with
          | Except.error e => Except.error e
          | Except.ok (paths, dirMetadata) =>
            match pmGet paths entry.1 with
            | none => Except.error "entry vanished from paths"
            | some ci =>
              if ci.merged.clean then
                Except.ok (paths, recordEntryForTree dirMetadata entry.1 ci, unmerged, outs)
              else
                match processEntry opt ext callDepth paths entry.1 ci dirMetadata unmerged with
                | Except.error e => Except.error e
                | Except.ok r => Except.ok (r.paths, r.dirMetadata, r.unmerged, outs ++ r.outs)
    match plist.reverse.foldl step (Except.ok (paths, dirMetadata, [], [])) with
    | Except.error e => Except.error e
    | Except.ok (paths, dirMetadata, unmerged, outs) =>
      if dirMetadata.offsets.length != 1 ||
         ((dirMetadata.offsets.getD 0 ({ buf := [], off := 0 }, 0)).2 != 0) then
        Except.error "BUG: dir_metadata accounting completely off"
      else
        Except.ok (writeTree dirMetadata.versions 0, paths, unmerged, outs)

/-- merge_ort_nonrecursive_internal from merge-ort.c.  Returns the
clean flag and the result tree (plus final path and unmerged maps and
diagnostics). -/
def mergeOrtNonrecursiveInternal (opt : MergeOpts) (ext : MergeExt)
    (callDepth : Nat) (fuel : Nat) (head merge mergeBase : GitObj) :
    Except String (Int × GitObj × PathsMap × PathsMap × Outputs) :=
  let (merge, mergeBase) :=
    match opt.subtree_shift with
    | none => (merge, mergeBase)
    | some shift => (ext.shiftTree head merge shift, ext.shiftTree head mergeBase shift)
  if mergeBase == merge then
    Except.ok (1, head, [], [], ["Already up to date!"])
  else
    match collectMergeInfo fuel opt mergeBase head merge with
    | Except.error e => Except.error e
    | Except.ok st =>
      match detectAndProcessRenames opt ext callDepth st.paths
              st.possible_dir_rename_bases [] mergeBase head merge 0 with
      | Except.error e => Except.error e
      | Except.ok (clean, paths, _, _, outs1, _) =>
        match processEntries opt ext callDepth paths with
        | Except.error e => Except.error e
        | Except.ok (resultTree, paths, unmerged, outs2) =>
          let clean := iand clean (if unmerged.isEmpty then 1 else 0)
          Except.ok (clean, resultTree, paths, unmerged, outs1 ++ outs2)

/-! ### Entry points (merge_ort_nonrecursive, merge_ort) -/

/-- merge_ort_nonrecursive from merge-ort.c: the entry assertion
`assert(opt->ancestor != NULL)`, with everything after it (merge_start,
the internal merge, switching to the result, finalization) given as a
continuation since the assertion is checked before any of it runs.  A
failed assert aborts, modelled as the tagged error. -/
def mergeOrtNonrecursiveEntry (opt : MergeOpts)
    (rest : Unit → Except String Int) : Except String Int :=
  if opt.ancestor == none then
    Except.error "assert failed: opt->ancestor != NULL"
  else rest ()

/-- merge_ort from merge-ort.c: the entry assertion
`assert(opt->ancestor == NULL || !strcmp(opt->ancestor, "constructed merge base"))`. -/
def mergeOrtEntry (opt : MergeOpts)
    (rest : Unit → Except String Int) : Except String Int :=
  if opt.ancestor == none || opt.ancestor == some (str "constructed merge base") then
    rest ()
  else
    Except.error "assert failed: ancestor NULL or constructed merge base"

/-! ### Concrete scenarios used by the analysis -/

/-- A source path lies under one of the possible directory-rename
bases. -/
def underSomeBase (bases : List CPath) (p : CPath) : Bool :=
  bases.any (fun d => List.isPrefixOf (d ++ ['/']) p)

/-- The fresh directory-versions state of process_entries. -/
def dirVersionsInit : DirVersions :=
  { versions := [], offsets := [], last_directory := none, last_directory_len := 0 }

/-- side2 of the fast-forward failing input: relative to an empty base
it adds a/b/b2/y and a/b/c/x, two sibling subdirectories below a new
nested directory. -/
def side2ff : GitObj :=
  treeOf [(str "a", modeDIR, treeOf [(str "b", modeDIR,
    treeOf [(str "b2", modeDIR, treeOf [(str "y", modeREG, GitObj.blob 1)]),
            (str "c", modeDIR, treeOf [(str "x", modeREG, GitObj.blob 2)])])])]

/-- The external diff for the fast-forward failing input: diffing the
empty base against side2ff reports the two added files; every other
diff is empty. -/
def extFF : MergeExt :=
  { trivialExt with diffPairs := fun base side =>
      if base == GitObj.tnil && side == side2ff then
        [ { one := str "a/b/b2/y", two := str "a/b/b2/y", status := 'A', score := 0 },
          { one := str "a/b/c/x", two := str "a/b/c/x", status := 'A', score := 0 } ]
      else [] }

/-- Trees for the rename-filter scenario: base has f, side1 renames it
to g, side2 keeps f. -/
def baseRF : GitObj := treeOf [(str "f", modeREG, GitObj.blob 1)]
def side1RF : GitObj := treeOf [(str "g", modeREG, GitObj.blob 1)]
def side2RF : GitObj := treeOf [(str "f", modeREG, GitObj.blob 1)]

/-- The external diff for the rename-filter scenario: base to side1 is
one rename pair f to g; base to side2 is empty. -/
def extRF : MergeExt :=
  { trivialExt with diffPairs := fun base side =>
      if base == baseRF && side == side1RF then
        [ { one := str "f", two := str "g", status := 'R', score := 0 } ]
      else [] }

/-- A content-merge entry whose three stages are distinct regular
files, as process_entry sees it for filemask 7. -/
def ciContent : ConflictInfo :=
  { ciZero with
    filemask := 7,
    pathnames := { p0 := str "p", p1 := str "p", p2 := str "p" },
    stages :=
      { s0 := { mode := modeREG, oid := GitObj.blob 10 },
        s1 := { mode := modeREG, oid := GitObj.blob 11 },
        s2 := { mode := modeREG, oid := GitObj.blob 12 } } }

/-- Externals whose textual three-way merger fails (ll_merge reports an
internal error). -/
def extMergeFails : MergeExt :=
  { trivialExt with llMergeStatus := fun _ _ _ _ _ => -1 }

/-! ### Directory-rename majority scenario (parameterised by N and M) -/

/-- i-th file name moved to e: a run of i+1 letters a. -/
def repA (i : Nat) : CPath := List.replicate (i + 1) 'a'

/-- i-th file name moved to f: a run of i+1 letters b. -/
def repB (i : Nat) : CPath := List.replicate (i + 1) 'b'

/-- A rename pair d/(a...a) to e/(a...a). -/
def renPairDE (i : Nat) : FilePair :=
  { one := 'd' :: '/' :: repA i, two := 'e' :: '/' :: repA i, status := 'R', score := 0 }

/-- A rename pair d/(b...b) to f/(b...b). -/
def renPairDF (i : Nat) : FilePair :=
  { one := 'd' :: '/' :: repB i, two := 'f' :: '/' :: repB i, status := 'R', score := 0 }

/-- N renames d to e and M renames d to f, as the renaming side's pair
list. -/
def scenarioPairs (n m : Nat) : List FilePair :=
  (List.range n).map renPairDE ++ (List.range m).map renPairDF

/-- The new file d/x added by the non-renaming side. -/
def addPairDX : FilePair :=
  { one := str "d/x", two := str "d/x", status := 'A', score := 0 }

/-- The slice of opt->priv->paths the rename-application step consults
for that scenario: the d and e directory entries and the added file
d/x (nothing sits at e/x, the absent-collision case). -/
def scenarioPaths : PathsMap :=
  [ (str "d", { ciZero with dirmask := 3 }),
    (str "e", { ciZero with dirmask := 2 }),
    (str "d/x",
      { ciZero with
        filemask := 4,
        merged := { ciZero.merged with
          directory_name := { buf := str "d", off := 0 }, basename_offset := 2 },
        pathnames := { p0 := str "d/x", p1 := str "d/x", p2 := str "d/x" },
        stages := { s0 := viZero, s1 := viZero,
                    s2 := { mode := modeREG, oid := GitObj.blob 7 } } }) ]

/-- The entry process_entry leaves in the path map for the conflict
used in the is_null analysis: a path deleted on both sides that carries
a path_conflict mark (the state the source path of a
rename/rename(1to2) is left in). -/
def ciDelBoth : ConflictInfo :=
  { ciZero with
    filemask := 1,
    path_conflict := true,
    pathnames := { p0 := str "q", p1 := str "q", p2 := str "q" },
    stages := { s0 := { mode := modeREG, oid := GitObj.blob 3 }, s1 := viZero, s2 := viZero } }

/-- The observable outcome of the rename-filter scenario: the combined
rename queue (source, destination, status, side) together with the
possible-dir-rename-bases set. -/
def renameFilterRun : Except String (List (CPath × CPath × Char × Nat) × List CPath) :=
  match collectMergeInfo 10 defaultOpts baseRF side1RF side2RF with
  | Except.error e => Except.error e
  | Except.ok st =>
    match detectAndProcessRenames defaultOpts extRF 0 st.paths
            st.possible_dir_rename_bases [] baseRF side1RF side2RF 0 with
    | Except.error e => Except.error e
    | Except.ok (_, _, _, combined, _, _) =>
      Except.ok (combined.map (fun p => (p.one, p.two, p.status, p.score)),
                 st.possible_dir_rename_bases)

/-- The modify/delete entry used as the C4 witness: file present in
base and side1, deleted on side2 (filemask 3). -/
def ciModDel : ConflictInfo :=
  { ciZero with
    filemask := 3,
    pathnames := { p0 := str "m", p1 := str "m", p2 := str "m" },
    stages := { s0 := { mode := modeREG, oid := GitObj.blob 1 },
                s1 := { mode := modeREG, oid := GitObj.blob 2 },
                s2 := viZero } }

/-- A state about to close the empty directory d, for the C6 witness. -/
def dvCloseD : DirVersions :=
  { versions := [], offsets := [({ buf := str "d", off := 0 }, 0)],
    last_directory := some { buf := str "d", off := 0 },
    last_directory_len := 1 }

/-- The rename pair used to exercise the amended rename-queue
characterization: a plain rename src/a -> dst/a. -/
def pairC7 : FilePair :=
  { one := str "src/a", two := str "dst/a", status := 'R', score := 0 }

/-! ### Basic lemmas about the map model -/

theorem pmGet_pmPut_same (m : PathsMap) (s : CPath) (v : ConflictInfo) :
    pmGet (pmPut m s v) s = some v := by
  induction m with
  | nil => simp [pmPut, pmGet, strmapPutList]
  | cons e rest ih =>
    by_cases h : (e.1 == s) = true
    · simp [pmPut, pmGet, strmapPutList, h]
    · simp only [pmPut, strmapPutList] at *
      rw [if_neg (by simp [h])]
      simpa [pmGet, List.find?, h] using ih

theorem strmapTake_fst_none {α : Type} (l : List (CPath × α)) (s : CPath)
    (h : l.find? (fun e => e.1 == s) = none) :
    (strmapTake l s).1 = none := by
  induction l with
  | nil => rfl
  | cons e rest ih =>
    simp only [List.find?_cons] at h
    by_cases hc : (e.1 == s) = true
    · rw [hc] at h
      exact Option.noConfusion h
    · rw [Bool.not_eq_true] at hc
      rw [hc] at h
      simp only [strmapTake, hc, if_false]
      rw [if_neg (by simp [hc])]
      simpa using ih h

theorem strmapTake_snd_id {α : Type} (l : List (CPath × α)) (s : CPath)
    (h : l.find? (fun e => e.1 == s) = none) :
    (strmapTake l s).2 = l := by
  induction l with
  | nil => rfl
  | cons e rest ih =>
    simp only [List.find?_cons] at h
    by_cases hc : (e.1 == s) = true
    · rw [hc] at h
      exact Option.noConfusion h
    · rw [Bool.not_eq_true] at hc
      rw [hc] at h
      simp only [strmapTake, hc, if_false]
      rw [if_neg (by simp [hc])]
      simpa using ih h

/-- C10: for every strmap whose strdup_strings flag is set, calling
strmap_remove with a string not present in the map frees through the
NULL removed-entry pointer before the null check (the crash is the
`none` outcome), rather than leaving the map unaltered; by contrast
without strdup_strings the same call returns the map unchanged. -/
theorem c10_strmap_remove_null_deref {α : Type} (m : Strmap α) (s : CPath)
    (freeUtil : Bool) (habs : m.entries.find? (fun e => e.1 == s) = none) :
    (m.strdup_strings = true → strmap_remove m s freeUtil = none) ∧
    (m.strdup_strings = false → strmap_remove m s freeUtil = some m) := by
  obtain ⟨sd, ents⟩ := m
  simp only at habs
  have hpair : strmapTake ents s = (none, ents) :=
    Prod.ext (strmapTake_fst_none _ _ habs) (strmapTake_snd_id _ _ habs)
  refine ⟨fun hd => ?_, fun hd => ?_⟩ <;> simp only at hd <;> subst hd <;>
    simp [strmap_remove, hpair]

/-- C10 witness at a concrete map and key. -/
theorem c10_strmap_remove_null_deref_witness :
    ((({ strdup_strings := true, entries := [(str "a", 0)] } : Strmap Nat)).entries.find?
        (fun e => e.1 == str "b") = none) ∧
    strmap_remove ({ strdup_strings := true, entries := [(str "a", 0)] } : Strmap Nat)
      (str "b") true = none :=
  ⟨by decide,
   (c10_strmap_remove_null_deref
     ({ strdup_strings := true, entries := [(str "a", 0)] } : Strmap Nat)
     (str "b") true (by decide)).1 rfl⟩

/-- C9: merge_ort_nonrecursive asserts at entry that opt->ancestor is
set, while merge_ort asserts that opt->ancestor is unset or exactly
"constructed merge base"; within those preconditions both proceed into
the body. -/
theorem c9_ancestor_preconditions (opt : MergeOpts)
    (k : Unit → Except String Int) :
    (opt.ancestor = none →
      mergeOrtNonrecursiveEntry opt k =
        Except.error "assert failed: opt->ancestor != NULL") ∧
    (opt.ancestor ≠ none → mergeOrtNonrecursiveEntry opt k = k ()) ∧
    (opt.ancestor = none ∨ opt.ancestor = some (str "constructed merge base") →
      mergeOrtEntry opt k = k ()) ∧
    (opt.ancestor ≠ none → opt.ancestor ≠ some (str "constructed merge base") →
      mergeOrtEntry opt k =
        Except.error "assert failed: ancestor NULL or constructed merge base") := by
  refine ⟨fun h => ?_, fun h => ?_, fun h => ?_, fun h1 h2 => ?_⟩
  · simp [mergeOrtNonrecursiveEntry, h]
  · simp [mergeOrtNonrecursiveEntry, h]
  · rcases h with h | h <;> simp [mergeOrtEntry, h]
  · simp [mergeOrtEntry, h1, h2]

/-- C9 witness: both assertions exercised at concrete options. -/
theorem c9_ancestor_preconditions_witness :
    mergeOrtNonrecursiveEntry { defaultOpts with ancestor := none }
      (fun _ => Except.ok 1) = Except.error "assert failed: opt->ancestor != NULL" ∧
    mergeOrtEntry { defaultOpts with ancestor := some (str "base") }
      (fun _ => Except.ok 1) =
      Except.error "assert failed: ancestor NULL or constructed merge base" :=
  ⟨(c9_ancestor_preconditions { defaultOpts with ancestor := none }
      (fun _ => Except.ok 1)).1 rfl,
   (c9_ancestor_preconditions { defaultOpts with ancestor := some (str "base") }
      (fun _ => Except.ok 1)).2.2.2 (by simp) (by simp [str])⟩

/-- C8 counterexample: with rename_limit configured to 5000, the value
handed to the external diff engine is 5000, not a capped 1000 — the
engine does not cap larger caller values. -/
theorem c8_rename_limit_counterexample :
    (getDiffpairsSetup { defaultOpts with rename_limit := 5000 } 0 0).2.1 = 5000 ∧
    (1000 : Int) < 5000 := by
  constructor
  · rfl
  · decide

/-- C8 amended: get_diffpairs passes a non-negative caller rename_limit
through unchanged and substitutes the default 1000 only when the caller
left it negative; the cap it does apply is on detect_rename (down to
plain rename detection), and the detector's needed_rename_limit is
recorded as a running maximum for diagnostics without affecting the
returned pairs. -/
theorem c8_rename_limit_amended (opt : MergeOpts) (needed diffNeeded : Int) :
    ((0 : Int) <= opt.rename_limit →
      (getDiffpairsSetup opt needed diffNeeded).2.1 = opt.rename_limit) ∧
    (opt.rename_limit < 0 → (getDiffpairsSetup opt needed diffNeeded).2.1 = 1000) ∧
    (getDiffpairsSetup opt needed diffNeeded).2.2 = max needed diffNeeded ∧
    (getDiffpairsSetup opt needed diffNeeded).1 <= DIFF_DETECT_RENAME := by
  unfold getDiffpairsSetup
  refine ⟨fun h => ?_, fun h => ?_, ?_, ?_⟩
  · simp only
    rw [if_pos (by omega)]
  · simp only
    rw [if_neg (by omega)]
  · simp only
    rcases lt_or_le needed diffNeeded with h | h
    · rw [if_pos (by omega), max_eq_right (le_of_lt h)]
    · rw [if_neg (by omega), max_eq_left h]
  · by_cases h : mergeDetectRename opt = true <;>
      simp [h, DIFF_DETECT_RENAME]

/-- C8 witness at concrete values. -/
theorem c8_rename_limit_amended_witness :
    ((0 : Int) <= (2000 : Int)) ∧
    (getDiffpairsSetup { defaultOpts with rename_limit := 2000 } 3 7).2.1 = 2000 ∧
    (getDiffpairsSetup { defaultOpts with rename_limit := 2000 } 3 7).2.2 = max 3 7 :=
  ⟨by decide,
   (c8_rename_limit_amended { defaultOpts with rename_limit := 2000 } 3 7).1 (by decide),
   (c8_rename_limit_amended { defaultOpts with rename_limit := 2000 } 3 7).2.2.1⟩

/-- C5 counterexample: side1 a submodule, side2 a symbolic link; the
adapter keeps side2's symlink version, not the submodule version the
claim promises. -/
theorem c5_mixed_type_counterexample :
    handleContentMerge defaultOpts trivialExt 0 (str "p") viZero
      { mode := modeGITLINK, oid := GitObj.blob 5 }
      { mode := modeLNK, oid := GitObj.blob 6 }
      { p0 := str "p", p1 := str "p", p2 := str "p" } 0
    = Except.ok (0, { mode := modeLNK, oid := GitObj.blob 6 }, []) ∧
    modeLNK ≠ modeGITLINK := by
  constructor
  · rfl
  · decide

/-- C5 amended: when side1's and side2's versions have different object
types, the content merge is unclean and the survivor is side1's
version when side1 is a regular file and side2's version otherwise (so
between a submodule and a symlink, side2 survives whichever type it
is). -/
theorem c5_mixed_type_amended (opt : MergeOpts) (ext : MergeExt) (cd : Nat)
    (path : CPath) (o a b : VersionInfo) (pn : Pathnames) (ems : Nat)
    (hmix : Nat.land a.mode sIFMT ≠ Nat.land b.mode sIFMT) :
    handleContentMerge opt ext cd path o a b pn ems =
      Except.ok (0,
        if sISREG a.mode then { mode := a.mode, oid := a.oid }
        else { mode := b.mode, oid := b.oid }, []) := by
  unfold handleContentMerge
  rw [if_pos (by simpa using hmix)]
  by_cases hr : sISREG a.mode = true <;> simp [hr]

/-- C5 witness at the submodule-versus-symlink input. -/
theorem c5_mixed_type_amended_witness :
    Nat.land modeGITLINK sIFMT ≠ Nat.land modeLNK sIFMT ∧
    handleContentMerge defaultOpts trivialExt 0 (str "p") viZero
      { mode := modeGITLINK, oid := GitObj.blob 5 }
      { mode := modeLNK, oid := GitObj.blob 6 }
      { p0 := str "p", p1 := str "p", p2 := str "p" } 0
    = Except.ok (0,
        if sISREG modeGITLINK then
          { mode := modeGITLINK, oid := GitObj.blob 5 : VersionInfo }
        else { mode := modeLNK, oid := GitObj.blob 6 }, []) :=
  ⟨by decide,
   c5_mixed_type_amended defaultOpts trivialExt 0 (str "p") viZero
     { mode := modeGITLINK, oid := GitObj.blob 5 }
     { mode := modeLNK, oid := GitObj.blob 6 }
     { p0 := str "p", p1 := str "p", p2 := str "p" } 0 (by decide)⟩

/-- C3: on an entry with filemask 7 whose internal textual merge
fails, handle_content_merge reports the error and returns -1, but
process_entry stores that -1 into an unsigned clean_merge, so the
entry ends marked clean and is left out of the unmerged map while
processing continues: the error does not flip the clean flag to false
as specified. -/
theorem c3_content_merge_error_continues :
    Except.map (fun r => (r.ci.merged.clean, r.unmerged, r.outs))
      (processEntry defaultOpts extMergeFails 0 [(str "p", ciContent)] (str "p")
        ciContent dirVersionsInit [])
    = Except.ok (true, ([] : PathsMap), ["Failed to execute internal merge"]) := by
  rfl

/-- C1: fast-forward failure.  With base = side1 = the empty tree and
side2 adding a/b/b2/y and a/b/c/x, the merge should be clean with
result tree(side2); instead write_completed_directories pushes the
basename of a nested parent directory as its offsets frame, the second
sibling close pushes a duplicate frame, and the engine aborts in its
own accounting check. -/
theorem c1_fast_forward_writer_bug :
    mergeOrtNonrecursiveInternal defaultOpts extFF 0 100 GitObj.tnil side2ff GitObj.tnil
      = Except.error "BUG: dir_metadata accounting completely off" := by
  rfl

/-- C6 counterexample: a path deleted on both sides that carries
path_conflict (the source of a rename/rename(1to2)) resolves with
is_null set and clean unset, refuting the claimed implication from
is_null to clean for entries of the path map after resolution. -/
theorem c6_null_implies_clean_counterexample :
    Except.map
      (fun r => (pmGet r.paths r.path).map
        (fun c => (c.merged.is_null, c.merged.clean)))
      (processEntry defaultOpts trivialExt 0 [(str "q", ciDelBoth)] (str "q")
        ciDelBoth dirVersionsInit [])
    = Except.ok (some (true, false)) := by
  rfl

/-- C7 counterexample: base has f, side1 renames f to g, side2 keeps
f.  PossibleDirRenameBases is empty, yet the rename pair with source f
is retained in the combined rename queue: rename detection performs no
filtering by PossibleDirRenameBases. -/
theorem c7_rename_filter_counterexample :
    renameFilterRun = Except.ok ([(str "f", str "g", 'R', 1)], []) ∧
    underSomeBase [] (str "f") = false := by
  constructor
  · rfl
  · rfl

/-- C4: modify/delete resolution.  For every conflict entry with
match_mask 0 and filemask 3 or 5, process_entry records as the merged
result the surviving side's stage when call_depth is 0 and the base
stage when call_depth > 0, marks the entry unclean, and files it in the
unmerged map.  (The hypothesis on merged.result.mode states the D/F
inspection invariant the source asserts: a directory that remained in
the way stores S_IFDIR there, otherwise the field is still zero.) -/
theorem c4_modify_delete (opt : MergeOpts) (ext : MergeExt) (callDepth : Nat)
    (paths : PathsMap) (pathIn : CPath) (ci : ConflictInfo)
    (dm : DirVersions) (unm : PathsMap)
    (hclean : ci.merged.clean = false) (hproc : ci.processed = false)
    (hmm : ci.match_mask = 0) (hfm : ci.filemask = 3 ∨ ci.filemask = 5)
    (hdf : ci.df_conflict = true →
      ci.merged.result.mode = 0 ∨ ci.merged.result.mode = modeDIR) :
    Except.map
      (fun r => (r.ci.merged.result, r.ci.merged.clean,
        pmGet r.unmerged r.path == some r.ci))
      (processEntry opt ext callDepth paths pathIn ci dm unm)
    = Except.ok
        (ci.stages.get (if callDepth != 0 then 0 else (if ci.filemask == 5 then 2 else 1)),
         false, true) := by
  rcases hfm with h35 | h35 <;> by_cases hdfc : ci.df_conflict = true <;>
    by_cases hcd : callDepth = 0 <;>
    by_cases hm0 : ci.merged.result.mode = 0 <;>
    simp_all [processEntry, Except.map, pmGet_pmPut_same, modeDIR]

/-- C4 witness at a concrete modify/delete entry, at call depth 0 and 1. -/
theorem c4_modify_delete_witness :
    (ciModDel.merged.clean = false ∧ ciModDel.match_mask = 0 ∧
     (ciModDel.filemask = 3 ∨ ciModDel.filemask = 5)) ∧
    Except.map
      (fun r => (r.ci.merged.result, r.ci.merged.clean,
        pmGet r.unmerged r.path == some r.ci))
      (processEntry defaultOpts trivialExt 0 [(str "m", ciModDel)] (str "m")
        ciModDel dirVersionsInit [])
    = Except.ok
        (ciModDel.stages.get
          (if (0 : Nat) != 0 then 0 else (if ciModDel.filemask == 5 then 2 else 1)),
         false, true) ∧
    Except.map
      (fun r => (r.ci.merged.result, r.ci.merged.clean,
        pmGet r.unmerged r.path == some r.ci))
      (processEntry defaultOpts trivialExt 1 [(str "m", ciModDel)] (str "m")
        ciModDel dirVersionsInit [])
    = Except.ok
        (ciModDel.stages.get
          (if (1 : Nat) != 0 then 0 else (if ciModDel.filemask == 5 then 2 else 1)),
         false, true) :=
  ⟨⟨rfl, rfl, Or.inl rfl⟩,
   c4_modify_delete defaultOpts trivialExt 0 [(str "m", ciModDel)] (str "m")
     ciModDel dirVersionsInit [] rfl rfl rfl (Or.inl rfl) (by decide),
   c4_modify_delete defaultOpts trivialExt 1 [(str "m", ciModDel)] (str "m")
     ciModDel dirVersionsInit [] rfl rfl rfl (Or.inl rfl) (by decide)⟩

/-- C6 amended: an entry may end resolution with is_null set and clean
unset (see the counterexample), but null entries still never reach an
emitted tree: record_entry_for_tree skips every is_null entry, and a
directory closed with no recorded children is marked is_null, has no
tree written for it, and contributes no record to its parent's
versions. -/
theorem c6_null_entries_amended :
    (∀ (dm : DirVersions) (path : CPath) (ci : ConflictInfo),
      ci.merged.is_null = true → recordEntryForTree dm path ci = dm) ∧
    (∀ (paths : PathsMap) (newDir lastDir : CStr) (info : DirVersions)
      (dirEntry : ConflictInfo) (frame : CStr × Nat),
      info.last_directory = some lastDir →
      (some newDir == info.last_directory) = false →
      strncmpEq newDir.val lastDir.val info.last_directory_len = false →
      pmGet paths lastDir.val = some dirEntry →
      info.offsets.getLast? = some frame →
      frame.2 = info.versions.length →
      Except.map (fun pr => pmGet pr.1 lastDir.val)
          (writeCompletedDirectories paths newDir info)
        = Except.ok (some
            { dirEntry with merged := { dirEntry.merged with is_null := true } }) ∧
      Except.map (fun pr => pr.2.versions)
          (writeCompletedDirectories paths newDir info)
        = Except.ok info.versions) := by
  constructor
  · intro dm path ci h
    simp [recordEntryForTree, h]
  · intro paths newDir lastDir info dirEntry frame h1 h2 h3 h4 h5 h6
    rw [h1] at h2
    have hne : ¬(newDir = lastDir) := by simpa using h2
    constructor
    · simp [writeCompletedDirectories, h1, hne, h3, h4, h5, h6, Except.map,
        pmGet_pmPut_same]
    · simp [writeCompletedDirectories, h1, hne, h3, h4, h5, h6, Except.map]

/-- C6 witness: a concrete is_null entry is skipped by
record_entry_for_tree, and a concrete empty-directory close marks the
directory null and appends nothing. -/
theorem c6_null_entries_amended_witness :
    recordEntryForTree dirVersionsInit (str "n")
      { ciZero with merged := { ciZero.merged with is_null := true } }
      = dirVersionsInit ∧
    Except.map (fun pr => pmGet pr.1 (str "d"))
        (writeCompletedDirectories [(str "d", ciZero)] { buf := [], off := 0 } dvCloseD)
      = Except.ok (some
          { ciZero with merged := { ciZero.merged with is_null := true } }) ∧
    Except.map (fun pr => pr.2.versions)
        (writeCompletedDirectories [(str "d", ciZero)] { buf := [], off := 0 } dvCloseD)
      = Except.ok dvCloseD.versions :=
  ⟨c6_null_entries_amended.1 dirVersionsInit (str "n")
     { ciZero with merged := { ciZero.merged with is_null := true } } rfl,
   (c6_null_entries_amended.2 [(str "d", ciZero)] { buf := [], off := 0 }
     { buf := str "d", off := 0 } dvCloseD ciZero ({ buf := str "d", off := 0 }, 0)
     rfl (by decide) (by decide) (by decide) rfl rfl).1,
   (c6_null_entries_amended.2 [(str "d", ciZero)] { buf := [], off := 0 }
     { buf := str "d", off := 0 } dvCloseD ciZero ({ buf := str "d", off := 0 }, 0)
     rfl (by decide) (by decide) (by decide) rfl rfl).2⟩

theorem adrm_pair_fields (paths : PathsMap) (ptf : List CPath) (pair : FilePair)
    (np : CPath) (paths2 : PathsMap) (ptf2 : List CPath) (p2 : FilePair)
    (h : applyDirectoryRenameModifications paths ptf pair np
      = Except.ok (paths2, ptf2, p2)) :
    p2.one = pair.one ∧ p2.status = pair.status := by
  unfold applyDirectoryRenameModifications at h
  rcases hpm : pmGet paths pair.two with - | ci
  · simp [hpm] at h
  · simp only [hpm] at h
    rcases hfp : adrmFindParents paths (np.length + 2) np [] with - | pr
    · simp [hfp] at h
    · simp only [hfp] at h
      obtain ⟨parentName0, dirsToInsert⟩ := pr
      split at h
      · simp only [Except.ok.injEq, Prod.mk.injEq] at h
        obtain ⟨-, -, rfl⟩ := h
        exact ⟨rfl, rfl⟩
      · repeat' split at h
        all_goals
          first
          | (simp at h
             done)
          | (simp only [Except.ok.injEq, Prod.mk.injEq] at h
             obtain ⟨-, -, rfl⟩ := h
             exact ⟨rfl, rfl⟩)

theorem collectRenamesStep_foldl_error (opt : MergeOpts) (sideIndex : Nat)
    (dr excl : DirRenames) (l : List FilePair) (e : String) :
    l.foldl (collectRenamesStep opt sideIndex dr excl) (Except.error e)
      = Except.error e := by
  induction l with
  | nil => rfl
  | cons p rest ih => simpa [collectRenamesStep] using ih

theorem collectRenamesStep_ok (opt : MergeOpts) (sideIndex : Nat)
    (dr excl : DirRenames)
    (st st' : Int × List FilePair × PathsMap × List CPath × Collisions × Outputs)
    (p : FilePair)
    (h : collectRenamesStep opt sideIndex dr excl (Except.ok st) p = Except.ok st') :
    (st'.2.1 = st.2.1 ∨ ∃ p2 : FilePair, st'.2.1 = st.2.1 ++ [p2] ∧
       p2.one = p.one ∧ p2.status = p.status ∧ (p.status = 'A' ∨ p.status = 'R')) ∧
    (p.status = 'R' → ∃ p2 : FilePair, st'.2.1 = st.2.1 ++ [p2] ∧
       p2.one = p.one ∧ p2.status = 'R') := by
  obtain ⟨clean, queue, paths, ptf, cols, outs⟩ := st
  simp only [collectRenamesStep] at h
  by_cases h1 : (p.status != 'A' && p.status != 'R') = true
  · rw [if_pos h1] at h
    simp only [Except.ok.injEq] at h
    subst h
    refine ⟨Or.inl rfl, fun hR => ?_⟩
    rw [hR] at h1
    simp at h1
  · rw [if_neg h1] at h
    have hAR : p.status = 'A' ∨ p.status = 'R' := by
      by_cases hA : p.status = 'A'
      · exact Or.inl hA
      · by_cases hR : p.status = 'R'
        · exact Or.inr hR
        · exact absurd (show (p.status != 'A' && p.status != 'R') = true by
            simp [bne_iff_ne, hA, hR]) h1
    rcases hc : checkForDirectoryRename paths p.two sideIndex dr excl cols clean
      with e | okv
    · simp [hc] at h
    · obtain ⟨npo, cols2, clean2, outs1⟩ := okv
      simp only [hc] at h
      by_cases h2 : (p.status != 'R' && npo.isNone) = true
      · rw [if_pos h2] at h
        simp only [Except.ok.injEq] at h
        subst h
        refine ⟨Or.inl rfl, fun hR => ?_⟩
        rw [hR] at h2
        simp at h2
      · rw [if_neg h2] at h
        rcases npo with - | np
        · simp only [Except.ok.injEq] at h
          subst h
          exact ⟨Or.inr ⟨_, rfl, rfl, rfl, hAR⟩, fun hR => ⟨_, rfl, rfl, hR⟩⟩
        · rcases ha : applyDirectoryRenameModifications paths ptf p np
            with e | okw
          · simp [ha] at h
          · obtain ⟨paths3, ptf3, p3⟩ := okw
            simp only [ha] at h
            simp only [Except.ok.injEq] at h
            subst h
            obtain ⟨hone, hstat⟩ := adrm_pair_fields paths ptf p np paths3 ptf3 p3 ha
            exact ⟨Or.inr ⟨_, rfl, hone, hstat, hAR⟩,
              fun hR => ⟨_, rfl, hone, by rw [hstat, hR]⟩⟩

theorem collectRenamesStep_foldl_inv (opt : MergeOpts) (sideIndex : Nat)
    (dr excl : DirRenames) (l : List FilePair)
    (st st' : Int × List FilePair × PathsMap × List CPath × Collisions × Outputs)
    (h : l.foldl (collectRenamesStep opt sideIndex dr excl) (Except.ok st)
      = Except.ok st') :
    (∀ q ∈ st'.2.1, q ∈ st.2.1 ∨ ∃ p ∈ l, q.one = p.one ∧ q.status = p.status ∧
       (p.status = 'A' ∨ p.status = 'R')) ∧
    (∀ p ∈ l, p.status = 'R' →
       ∃ q ∈ st'.2.1, q.one = p.one ∧ q.status = 'R') ∧
    (∀ q ∈ st.2.1, q ∈ st'.2.1) := by
  induction l generalizing st with
  | nil =>
    simp only [List.foldl_nil, Except.ok.injEq] at h
    subst h
    exact ⟨fun q hq => Or.inl hq, fun p hp => absurd hp (List.not_mem_nil p),
      fun q hq => hq⟩
  | cons p rest ih =>
    rw [List.foldl_cons] at h
    rcases hstep : collectRenamesStep opt sideIndex dr excl (Except.ok st) p
      with e | st1
    · rw [hstep, collectRenamesStep_foldl_error] at h
      exact Except.noConfusion h
    · rw [hstep] at h
      obtain ⟨hup, hretain⟩ := collectRenamesStep_ok opt sideIndex dr excl st st1 p hstep
      obtain ⟨ih1, ih2, ih3⟩ := ih st1 h
      have hmono : ∀ q ∈ st.2.1, q ∈ st1.2.1 := by
        intro q hq
        rcases hup with heq | ⟨p2, heq, -⟩
        · rw [heq]; exact hq
        · rw [heq]; exact List.mem_append_left _ hq
      refine ⟨?_, ?_, fun q hq => ih3 q (hmono q hq)⟩
      · intro q hq
        rcases ih1 q hq with hq1 | ⟨p3, hp3, hf⟩
        · rcases hup with heq | ⟨p2, heq, hone, hstat, hAR⟩
          · rw [heq] at hq1; exact Or.inl hq1
          · rw [heq] at hq1
            rcases List.mem_append.mp hq1 with hq2 | hq2
            · exact Or.inl hq2
            · have : q = p2 := by simpa using hq2
              subst this
              exact Or.inr ⟨p, List.mem_cons_self p rest, hone, hstat, hAR⟩
        · exact Or.inr ⟨p3, List.mem_cons_of_mem p hp3, hf⟩
      · intro p' hp' hR
        rcases List.mem_cons.mp hp' with rfl | hp2
        · obtain ⟨p2, heq, hone, hstat⟩ := hretain hR
          refine ⟨p2, ih3 p2 ?_, hone, hstat⟩
          rw [heq]
          exact List.mem_append_right _ (List.mem_singleton.mpr rfl)
        · exact ih2 p' hp2 hR

/-- C7 (amended): collect_renames performs no filtering by the
possible-dir-rename-bases set. The per-side queue it builds retains the
incoming queue intact and otherwise contains exactly entries derived from
input pairs whose diff status is 'A' or 'R' (source path and status
preserved); in particular every rename pair (status 'R') of the side
reaches the queue with its source path intact, regardless of any bases
set. -/
theorem c7_rename_filter_amended (opt : MergeOpts) (queue0 : List FilePair)
    (sideIndex : Nat) (sidePairs : List FilePair) (dr excl : DirRenames)
    (paths : PathsMap) (ptf : List CPath) (clean : Int) (queue : List FilePair)
    (paths2 : PathsMap) (ptf2 : List CPath) (outs : Outputs)
    (h : collectRenames opt queue0 sideIndex sidePairs dr excl paths ptf
      = Except.ok (clean, queue, paths2, ptf2, outs)) :
    (∀ q ∈ queue, q ∈ queue0 ∨ ∃ p ∈ sidePairs, q.one = p.one ∧
       q.status = p.status ∧ (p.status = 'A' ∨ p.status = 'R')) ∧
    (∀ p ∈ sidePairs, p.status = 'R' →
       ∃ q ∈ queue, q.one = p.one ∧ q.status = 'R') ∧
    (∀ q ∈ queue0, q ∈ queue) := by
  simp only [collectRenames] at h
  rcases hf : sidePairs.foldl (collectRenamesStep opt sideIndex dr excl)
      (Except.ok (1, queue0, paths, ptf, computeCollisions dr sidePairs, []))
    with e | st'
  · simp [hf] at h
  · obtain ⟨c1, q1, pa1, pt1, co1, o1⟩ := st'
    simp only [hf, Except.ok.injEq, Prod.mk.injEq] at h
    obtain ⟨-, hq, -, -, -⟩ := h
    obtain ⟨i1, i2, i3⟩ := collectRenamesStep_foldl_inv opt sideIndex dr excl
      sidePairs (1, queue0, paths, ptf, computeCollisions dr sidePairs, [])
      (c1, q1, pa1, pt1, co1, o1) hf
    subst hq
    exact ⟨i1, i2, i3⟩

theorem c7_rename_filter_amended_witness :
    collectRenames defaultOpts [] 1 [pairC7] [] [] [] []
      = Except.ok (1, [{ pairC7 with score := 1 }], [], [], []) ∧
    (∀ p ∈ [pairC7], p.status = 'R' →
       ∃ q ∈ [{ pairC7 with score := 1 }], q.one = p.one ∧ q.status = 'R') :=
  ⟨rfl, (c7_rename_filter_amended defaultOpts [] 1 [pairC7] [] [] [] []
      1 [{ pairC7 with score := 1 }] [] [] [] rfl).2.1⟩

theorem strrchrIdxAux_noc (c : Char) :
    ∀ (w : CPath) (i : Nat) (acc : Option Nat), (∀ x ∈ w, x ≠ c) →
    strrchrIdxAux w c i acc = acc := by
  intro w
  induction w with
  | nil => intro i acc _; rfl
  | cons x xs ih =>
    intro i acc hw
    have hx : x ≠ c := hw x (List.mem_cons_self x xs)
    rw [strrchrIdxAux, if_neg hx]
    exact ih (i + 1) acc (fun y hy => hw y (List.mem_cons_of_mem x hy))

theorem getRenamedDirPortion_flat (c1 c2 : Char) (w : CPath)
    (hw : ∀ x ∈ w, x ≠ '/') (hne : c1 ≠ c2) :
    getRenamedDirPortion (c1 :: '/' :: w) (c2 :: '/' :: w)
      = (some [c1], some [c2]) := by
  have h0 := strrchrIdxAux_noc '/' w 2 (some 1) hw
  have h1 : strrchrIdx (c1 :: '/' :: w) '/' = some 1 := by
    simp [strrchrIdx, strrchrIdxAux, h0]
  have h2 : strrchrIdx (c2 :: '/' :: w) '/' = some 1 := by
    simp [strrchrIdx, strrchrIdxAux, h0]
  have hb : backWalk (c1 :: '/' :: w) (c2 :: '/' :: w) 1 1 = (0, 0) := by
    simp [backWalk]
  simp [getRenamedDirPortion, h1, h2, hb, strchrFrom, strchrIdxAux, hne]

theorem winnerScan_below (c : Nat) (l : List (CPath × Nat)) :
    ∀ (mx bad : Nat) (best : Option CPath),
    (∀ e ∈ l, e.2 < c) → mx < c → bad < c →
    ∃ mx2 bad2 best2, l.foldl winnerStep (mx, bad, best) = (mx2, bad2, best2) ∧
      mx2 < c ∧ bad2 < c := by
  induction l with
  | nil =>
    intro mx bad best _ hm hb
    exact ⟨mx, bad, best, rfl, hm, hb⟩
  | cons e rest ih =>
    intro mx bad best hl hm hb
    have he : e.2 < c := hl e (List.mem_cons_self e rest)
    have hrest : ∀ x ∈ rest, x.2 < c := fun x hx => hl x (List.mem_cons_of_mem e hx)
    rw [List.foldl_cons]
    by_cases h1 : (e.2 == mx) = true
    · rw [show winnerStep (mx, bad, best) e = (mx, mx, best) by
        simp [winnerStep, h1]]
      exact ih mx mx best hrest hm hm
    · by_cases h2 : e.2 > mx
      · rw [show winnerStep (mx, bad, best) e = (e.2, bad, some e.1) by
          simp only [winnerStep, h1, if_false, if_pos h2, Bool.false_eq_true]]
        exact ih e.2 bad (some e.1) hrest he hb
      · rw [show winnerStep (mx, bad, best) e = (mx, bad, best) by
          simp only [winnerStep, h1, if_false, if_neg h2, Bool.false_eq_true]]
        exact ih mx bad best hrest hm hb

theorem winnerScan_skip (c bad : Nat) (best : Option CPath) :
    ∀ l : List (CPath × Nat), (∀ e ∈ l, e.2 < c) →
    l.foldl winnerStep (c, bad, best) = (c, bad, best) := by
  intro l
  induction l with
  | nil => intro _; rfl
  | cons e rest ih =>
    intro hl
    have he : e.2 < c := hl e (List.mem_cons_self e rest)
    have h1 : (e.2 == c) = false := by simp [Nat.ne_of_lt he]
    have h2 : ¬ e.2 > c := by omega
    rw [List.foldl_cons, show winnerStep (c, bad, best) e = (c, bad, best) by
      simp only [winnerStep, h1, if_false, if_neg h2, Bool.false_eq_true]]
    exact ih (fun x hx => hl x (List.mem_cons_of_mem e hx))

theorem winnerScan_atmost (c : Nat) (l : List (CPath × Nat)) :
    ∀ (mx bad : Nat) (best : Option CPath),
    (∀ e ∈ l, e.2 ≤ c) → mx ≤ c → bad ≤ c →
    ∃ mx2 bad2 best2, l.foldl winnerStep (mx, bad, best) = (mx2, bad2, best2) ∧
      mx2 ≤ c ∧ bad2 ≤ c := by
  induction l with
  | nil =>
    intro mx bad best _ hm hb
    exact ⟨mx, bad, best, rfl, hm, hb⟩
  | cons e rest ih =>
    intro mx bad best hl hm hb
    have he : e.2 ≤ c := hl e (List.mem_cons_self e rest)
    have hrest : ∀ x ∈ rest, x.2 ≤ c := fun x hx => hl x (List.mem_cons_of_mem e hx)
    rw [List.foldl_cons]
    by_cases h1 : (e.2 == mx) = true
    · rw [show winnerStep (mx, bad, best) e = (mx, mx, best) by
        simp [winnerStep, h1]]
      exact ih mx mx best hrest hm hm
    · by_cases h2 : e.2 > mx
      · rw [show winnerStep (mx, bad, best) e = (e.2, bad, some e.1) by
          simp only [winnerStep, h1, if_false, if_pos h2, Bool.false_eq_true]]
        exact ih e.2 bad (some e.1) hrest he hb
      · rw [show winnerStep (mx, bad, best) e = (mx, bad, best) by
          simp only [winnerStep, h1, if_false, if_neg h2, Bool.false_eq_true]]
        exact ih mx bad best hrest hm hb

theorem winnerScan_capped (c : Nat) (be : Option CPath) :
    ∀ (l : List (CPath × Nat)) (b : Nat), (∀ e ∈ l, e.2 ≤ c) →
    ∃ b2, l.foldl winnerStep (c, b, be) = (c, b2, be) ∧ (b2 = b ∨ b2 = c) := by
  intro l
  induction l with
  | nil => intro b _; exact ⟨b, rfl, Or.inl rfl⟩
  | cons e rest ih =>
    intro b hl
    have he : e.2 ≤ c := hl e (List.mem_cons_self e rest)
    have hrest : ∀ x ∈ rest, x.2 ≤ c := fun x hx => hl x (List.mem_cons_of_mem e hx)
    rw [List.foldl_cons]
    by_cases h1 : (e.2 == c) = true
    · rw [show winnerStep (c, b, be) e = (c, c, be) by simp [winnerStep, h1]]
      obtain ⟨b2, heq, hh⟩ := ih c hrest
      exact ⟨b2, heq, Or.inr (hh.elim id id)⟩
    · have h2 : ¬ e.2 > c := by omega
      rw [show winnerStep (c, b, be) e = (c, b, be) by
        simp only [winnerStep, h1, if_false, if_neg h2, Bool.false_eq_true]]
      exact ih b hrest

theorem pickWinner_unique_max (info : DirRenameInfo) (l1 l2 : List (CPath × Nat))
    (d : CPath) (c : Nat) (hpnd : info.possible_new_dirs = l1 ++ (d, c) :: l2)
    (hc : 0 < c) (h1 : ∀ e ∈ l1, e.2 < c) (h2 : ∀ e ∈ l2, e.2 < c) :
    pickWinner info = { info with
      new_dir := info.new_dir ++ d, possible_new_dirs := [] } := by
  obtain ⟨m1, b1, be1, heq, hm1, hb1⟩ := winnerScan_below c l1 0 0 none h1 hc hc
  have hs1 : (c == m1) = false := by simp [ne_of_gt hm1]
  have hscan : winnerScan info.possible_new_dirs = (c, b1, some d) := by
    rw [winnerScan, hpnd, List.foldl_append, heq, List.foldl_cons,
      show winnerStep (m1, b1, be1) (d, c) = (c, b1, some d) by
        simp only [winnerStep, hs1, if_false, if_pos hm1, Bool.false_eq_true]]
    exact winnerScan_skip c b1 (some d) l2 h2
  have hb : (b1 == c) = false := by simp [Nat.ne_of_lt hb1]
  simp [pickWinner, hscan, hb]

theorem pickWinner_tie (info : DirRenameInfo) (l1 l2 l3 : List (CPath × Nat))
    (d d2 : CPath) (c : Nat)
    (hpnd : info.possible_new_dirs = l1 ++ (d, c) :: l2 ++ (d2, c) :: l3)
    (h1 : ∀ e ∈ l1, e.2 ≤ c) (h2 : ∀ e ∈ l2, e.2 ≤ c)
    (h3 : ∀ e ∈ l3, e.2 ≤ c) :
    pickWinner info = { info with
      non_unique_new_dir := true, possible_new_dirs := [] } ∧
    ∀ (src oldPath : CPath), applyDirRename (src, pickWinner info) oldPath = none := by
  have hscan : ∃ best, winnerScan info.possible_new_dirs = (c, c, best) := by
    obtain ⟨m1, b1, be1, heq, hm1, hb1⟩ :=
      winnerScan_atmost c l1 0 0 none h1 (Nat.zero_le c) (Nat.zero_le c)
    rw [winnerScan, hpnd, List.foldl_append, List.foldl_append,
      List.foldl_cons, List.foldl_cons, heq]
    by_cases hm : (c == m1) = true
    · have hc1 : m1 = c := (eq_of_beq hm).symm
      subst hc1
      rw [show winnerStep (m1, b1, be1) (d, m1) = (m1, m1, be1) by
        simp [winnerStep]]
      obtain ⟨b2, heq2, hb2⟩ := winnerScan_capped m1 be1 l2 m1 h2
      rw [heq2, hb2.elim id id,
        show winnerStep (m1, m1, be1) (d2, m1) = (m1, m1, be1) by
          simp [winnerStep]]
      obtain ⟨b3, heq3, hb3⟩ := winnerScan_capped m1 be1 l3 m1 h3
      exact ⟨be1, by rw [heq3, hb3.elim id id]⟩
    · have hlt : m1 < c :=
        lt_of_le_of_ne hm1 (fun h => hm (by simp [h]))
      rw [show winnerStep (m1, b1, be1) (d, c) = (c, b1, some d) by
        simp only [winnerStep, hm, if_pos hlt, Bool.false_eq_true, if_false]]
      obtain ⟨b2, heq2, hb2⟩ := winnerScan_capped c (some d) l2 b1 h2
      rw [heq2,
        show winnerStep (c, b2, some d) (d2, c) = (c, c, some d) by
          simp [winnerStep]]
      obtain ⟨b3, heq3, hb3⟩ := winnerScan_capped c (some d) l3 c h3
      exact ⟨some d, by rw [heq3, hb3.elim id id]⟩
  obtain ⟨best, hscan⟩ := hscan
  have hpw : pickWinner info = { info with
      non_unique_new_dir := true, possible_new_dirs := [] } := by
    simp [pickWinner, hscan]
  exact ⟨hpw, fun src oldPath => by simp [hpw, applyDirRename]⟩

theorem repA_noslash (i : Nat) : ∀ x ∈ repA i, x ≠ '/' := by
  intro x hx
  rw [repA] at hx
  rw [List.eq_of_mem_replicate hx]
  decide

theorem repB_noslash (i : Nat) : ∀ x ∈ repB i, x ≠ '/' := by
  intro x hx
  rw [repB] at hx
  rw [List.eq_of_mem_replicate hx]
  decide

theorem tallyDE (n : Nat) :
    ((List.range n).map renPairDE).foldl dirRenTallyStep []
      = if n = 0 then []
        else [(['d'], ⟨false, [], [(['e'], n)]⟩)] := by
  induction n with
  | zero => rfl
  | succ k ih =>
    rw [List.range_succ, List.map_append, List.foldl_append, ih]
    have hp := getRenamedDirPortion_flat 'd' 'e' (repA k) (repA_noslash k)
      (by decide)
    by_cases hk : k = 0
    · subst hk
      rw [if_pos rfl, if_neg (Nat.succ_ne_zero 0)]
      simp [dirRenTallyStep, renPairDE, hp, drGet, strmapPutList]
    · rw [if_neg hk, if_neg (Nat.succ_ne_zero k)]
      simp [dirRenTallyStep, renPairDE, hp, drGet, strmapPutList]

theorem tallyDF (n : Nat) (m : Nat) :
    ((List.range m).map renPairDF).foldl dirRenTallyStep
        [(['d'], ⟨false, [], [(['e'], n)]⟩)]
      = if m = 0 then [(['d'], ⟨false, [], [(['e'], n)]⟩)]
        else [(['d'], ⟨false, [], [(['e'], n), (['f'], m)]⟩)] := by
  induction m with
  | zero => rfl
  | succ k ih =>
    rw [List.range_succ, List.map_append, List.foldl_append, ih]
    have hp := getRenamedDirPortion_flat 'd' 'f' (repB k) (repB_noslash k)
      (by decide)
    by_cases hk : k = 0
    · subst hk
      rw [if_pos rfl, if_neg (Nat.succ_ne_zero 0)]
      simp [dirRenTallyStep, renPairDF, hp, drGet, strmapPutList]
    · rw [if_neg hk, if_neg (Nat.succ_ne_zero k)]
      simp [dirRenTallyStep, renPairDF, hp, drGet, strmapPutList]

theorem tallyScenario (n m : Nat) (hn : n ≠ 0) :
    dirRenTally (scenarioPairs n m)
      = if m = 0 then [(['d'], ⟨false, [], [(['e'], n)]⟩)]
        else [(['d'], ⟨false, [], [(['e'], n), (['f'], m)]⟩)] := by
  rw [dirRenTally, scenarioPairs, List.foldl_append, tallyDE n, if_neg hn,
    tallyDF n m]

theorem gdrScenario_win (n m : Nat) (h : m < n) :
    getDirectoryRenames (scenarioPairs n m)
      = [(['d'], ⟨false, ['e'], []⟩)] := by
  have hn : n ≠ 0 := by omega
  rw [getDirectoryRenames, tallyScenario n m hn]
  by_cases hm : m = 0
  · rw [if_pos hm]
    have hw := pickWinner_unique_max ⟨false, [], [(['e'], n)]⟩ [] [] ['e'] n rfl
      (Nat.pos_of_ne_zero hn) (by simp) (by simp)
    simp [hw]
  · rw [if_neg hm]
    have hw := pickWinner_unique_max ⟨false, [], [(['e'], n), (['f'], m)]⟩ []
      [(['f'], m)] ['e'] n rfl (Nat.pos_of_ne_zero hn) (by simp)
      (by simpa using h)
    simp [hw]

theorem gdrScenario_tie (n : Nat) (hn : n ≠ 0) :
    getDirectoryRenames (scenarioPairs n n)
      = [(['d'], ⟨true, [], []⟩)] := by
  rw [getDirectoryRenames, tallyScenario n n hn, if_neg hn]
  have hw := (pickWinner_tie ⟨false, [], [(['e'], n), (['f'], n)]⟩ [] [] []
    ['e'] ['f'] n rfl (by simp) (by simp) (by simp)).1
  simp [hw]

/-- C2: the directory-rename majority rule of get_directory_renames.
(i) When one candidate target directory has a strictly maximal tally for a
source directory, the winner loop declares it the winner and records it in
new_dir.  (ii) When the top tally is tied, non_unique_new_dir is set and
apply_dir_rename refuses to map any path for that source.  (iii) In the
concrete scenario with N renames d to e and M renames d to f, M < N, the
file d/x newly added on the other side is carried by the rename-collection
pass to e/x (absent collisions): the implicit-rename pair d/x to e/x is
queued, the path map afterwards holds e/x and no longer d/x, and no
conflict is reported.  (iv) With N = M >= 1, no implicit rename is queued,
the path map is left unchanged (d/x stays at d/x), the directory-rename
split diagnostic is emitted and the pass reports unclean. -/
theorem c2_directory_rename_majority :
    (∀ (info : DirRenameInfo) (l1 l2 : List (CPath × Nat)) (d : CPath) (c : Nat),
       info.possible_new_dirs = l1 ++ (d, c) :: l2 → 0 < c →
       (∀ e ∈ l1, e.2 < c) → (∀ e ∈ l2, e.2 < c) →
       pickWinner info = { info with
         new_dir := info.new_dir ++ d, possible_new_dirs := [] }) ∧
    (∀ (info : DirRenameInfo) (l1 l2 l3 : List (CPath × Nat)) (d d2 : CPath)
       (c : Nat),
       info.possible_new_dirs = l1 ++ (d, c) :: l2 ++ (d2, c) :: l3 →
       (∀ e ∈ l1, e.2 ≤ c) → (∀ e ∈ l2, e.2 ≤ c) → (∀ e ∈ l3, e.2 ≤ c) →
       (pickWinner info).non_unique_new_dir = true ∧
       ∀ src oldPath : CPath,
         applyDirRename (src, pickWinner info) oldPath = none) ∧
    (∀ n m : Nat, m < n →
       getDirectoryRenames (scenarioPairs n m)
         = [(str "d", ⟨false, str "e", []⟩)] ∧
       Except.map (fun r => (r.1, r.2.1, pmContains r.2.2.1 (str "e/x"),
           pmContains r.2.2.1 (str "d/x"), r.2.2.2.2))
         (collectRenames defaultOpts [] 2 [addPairDX]
           (getDirectoryRenames (scenarioPairs n m))
           (getDirectoryRenames [addPairDX]) scenarioPaths [])
         = Except.ok (1, [{ addPairDX with two := str "e/x", score := 2 }],
             true, false, [])) ∧
    (∀ n : Nat, 0 < n →
       getDirectoryRenames (scenarioPairs n n)
         = [(str "d", ⟨true, [], []⟩)] ∧
       Except.map (fun r => (r.1, r.2.1, r.2.2.1, r.2.2.2.2))
         (collectRenames defaultOpts [] 2 [addPairDX]
           (getDirectoryRenames (scenarioPairs n n))
           (getDirectoryRenames [addPairDX]) scenarioPaths [])
         = Except.ok (0, [], scenarioPaths,
             ["CONFLICT (directory rename split)"])) := by
  refine ⟨fun info l1 l2 d c h hc h1 h2 =>
      pickWinner_unique_max info l1 l2 d c h hc h1 h2,
    fun info l1 l2 l3 d d2 c h h1 h2 h3 =>
      ⟨by rw [(pickWinner_tie info l1 l2 l3 d d2 c h h1 h2 h3).1],
       (pickWinner_tie info l1 l2 l3 d d2 c h h1 h2 h3).2⟩,
    fun n m h => ?_, fun n h => ?_⟩
  · have hg := gdrScenario_win n m h
    refine ⟨hg, ?_⟩
    rw [hg]
    rfl
  · have hg := gdrScenario_tie n (Nat.pos_iff_ne_zero.mp h)
    refine ⟨hg, ?_⟩
    rw [hg]
    rfl

theorem c2_directory_rename_majority_witness :
    getDirectoryRenames (scenarioPairs 2 1) = [(str "d", ⟨false, str "e", []⟩)] ∧
    getDirectoryRenames (scenarioPairs 2 2) = [(str "d", ⟨true, [], []⟩)] :=
  ⟨(c2_directory_rename_majority.2.2.1 2 1 (by decide)).1,
   (c2_directory_rename_majority.2.2.2 2 (by decide)).1⟩
